/-
Verification of the shopify-xero-sync reconciliation engine.

This file gives a shallow embedding of the parts of the repository that the
verified properties speak about:

  * src/checksums.py        — fingerprint (checksum) calculation and change test
  * src/database.py         — the SQLite mapping / history / error store,
                              modelled as pure state transformers on lists
  * src/sync_engine.py      — the per-entity reconciliation passes and the
                              run controller
  * src/models.py           — the entity shapes the above operate on

Modelling conventions:
  * Python `str` is Lean `String`; `Optional[str]` is `Option String`.
  * Python `int` is Lean `Int`; timestamps are `Nat` ticks.
  * Python truthiness on optional strings (`if x:`) is `strTruthy`;
    `x or ""` is `orEmpty`.
  * `str(n)` on an int is `pyStrInt`, a decimal rendering defined below.
  * SHA-256 is modelled as an injective encoding: the digest is represented
    by the serialized input string itself (`sha256Hex` is the identity on
    the pipe-joined data).  All reasoning about fingerprints is reasoning
    about that serialization.
  * Remote (Shopify / Xero) calls are modelled by environments of pure
    functions returning `RemoteResult`; `.err` models a raised
    `ShopifyAPIError` / `XeroAPIError`.  Every remote call a pass makes is
    additionally recorded in an explicit call trace.
  * Float-valued payload fields of the Xero item / invoice conversions
    (SalesDetails prices, invoice line amounts) are omitted from the
    destination payload models: no verified property observes them, and the
    orchestrator never reads them back.
-/
import Mathlib

/-! ## Python string semantics helpers -/

/-- Python `x or ""` on an optional string: `None` and `""` both give `""`. -/
def orEmpty (o : Option String) : String := o.getD ""

/-- Python truthiness of an optional string: `None` and `""` are falsy. -/
def strTruthy (o : Option String) : Bool :=
  match o with
  | none => false
  | some s => !(s == "")

/-- Python `s or d` on a plain string: `""` is falsy and replaced by `d`. -/
def orDefault (s d : String) : String := if s == "" then d else s

/-- Little-endian decimal digits with explicit fuel, so the definition is
structurally recursive and kernel-reducible. -/
def pyDigitsAux : Nat → Nat → List Nat
  | 0, _ => []
  | fuel + 1, n => if n = 0 then [] else n % 10 :: pyDigitsAux fuel (n / 10)

/-- Little-endian decimal digits of a natural number. -/
def pyDigits (n : Nat) : List Nat := pyDigitsAux n n

/-- Decimal rendering of a natural number, most significant digit first.
Models Python `str` on a non-negative int. -/
def pyStrNat (n : Nat) : String :=
  if n = 0 then "0" else String.mk (((pyDigits n).map Nat.digitChar).reverse)

/-- Models Python `str` on an int (decimal, `-` sign for negatives). -/
def pyStrInt (i : Int) : String :=
  if i < 0 then "-" ++ pyStrNat i.natAbs else pyStrNat i.toNat

/-- Python `sep.join(items)`. -/
def joinSep (sep : String) : List String → String
  | [] => ""
  | s :: rest =>
    match rest with
    | [] => s
    | _ :: _ => s ++ sep ++ joinSep sep rest

/-! ## Entity models (src/models.py)

Only the fields read by the embedded operations are carried; omitted fields
(e.g. `note`, `tags`, `tax_exempt`) appear in no checksum, conversion or
sync decision. -/

/-- `ShopifyAddress` (models.py). -/
structure ShopifyAddress where
  address1 : Option String := none
  address2 : Option String := none
  city : Option String := none
  province : Option String := none
  country : Option String := none
  zip : Option String := none
  phone : Option String := none
deriving Repr, DecidableEq

/-- `ShopifyCustomer` (models.py). -/
structure ShopifyCustomer where
  id : Int
  email : Option String := none
  first_name : Option String := none
  last_name : Option String := none
  phone : Option String := none
  updated_at : Option Nat := none
  default_address : Option ShopifyAddress := none
deriving Repr, DecidableEq

/-- `ShopifyProductVariant` (models.py). -/
structure ShopifyProductVariant where
  id : Int
  product_id : Int
  price : String := "0.00"
  sku : Option String := none
deriving Repr, DecidableEq

/-- `ShopifyProduct` (models.py). -/
structure ShopifyProduct where
  id : Int
  title : String
  vendor : Option String := none
  product_type : Option String := none
  updated_at : Option Nat := none
  variants : List ShopifyProductVariant := []
deriving Repr, DecidableEq

/-- `ShopifyProduct.primary_variant` property (models.py): the first variant. -/
def ShopifyProduct.primary_variant (p : ShopifyProduct) : Option ShopifyProductVariant :=
  p.variants.head?

/-- `ShopifyLineItem` (models.py). -/
structure ShopifyLineItem where
  id : Int
  title : String
  quantity : Int
  sku : Option String := none
  price : String := "0.00"
deriving Repr, DecidableEq

/-- `ShopifyOrder` (models.py). -/
structure ShopifyOrder where
  id : Int
  order_number : Int
  name : String := ""
  email : Option String := none
  created_at : Option Nat := none
  updated_at : Option Nat := none
  currency : String := "GBP"
  total_price : String := "0.00"
  subtotal_price : String := "0.00"
  total_tax : String := "0.00"
  total_discounts : String := "0.00"
  financial_status : Option String := none
  customer : Option ShopifyCustomer := none
  line_items : List ShopifyLineItem := []
deriving Repr, DecidableEq

/-! ## Checksums (src/checksums.py) -/

/-- SHA-256 hex digest, modelled as an injective encoding: the digest stands
for the serialized data it was computed from. -/
def sha256Hex (s : String) : String := s

/-- The phone computation of `calculate_customer_checksum` (checksums.py):
the customer's phone, falling back to the default address's phone when the
former is missing or empty. -/
def customerEffectivePhone (customer : ShopifyCustomer) : String :=
  let phone0 := orEmpty customer.phone
  if phone0 == "" then
    match customer.default_address with
    | some addr => orEmpty addr.phone
    | none => phone0
  else phone0

/-- `calculate_customer_checksum` (checksums.py). -/
def calculate_customer_checksum (customer : ShopifyCustomer) : String :=
  let address_parts : List String :=
    match customer.default_address with
    | some addr =>
      [orEmpty addr.address1, orEmpty addr.address2, orEmpty addr.city,
       orEmpty addr.province, orEmpty addr.zip, orEmpty addr.country]
    | none => []
  sha256Hex (joinSep "|"
    ([orEmpty customer.email, orEmpty customer.first_name,
      orEmpty customer.last_name, customerEffectivePhone customer] ++ address_parts))

/-- `calculate_product_checksum` (checksums.py). -/
def calculate_product_checksum (product : ShopifyProduct) : String :=
  let variant := product.primary_variant
  sha256Hex (joinSep "|"
    [orDefault product.title "", orEmpty product.vendor, orEmpty product.product_type,
     (match variant with | some v => v.price | none => ""),
     (match variant with | some v => orEmpty v.sku | none => "")])

/-- One line item rendered as `f"{item.title}:{item.quantity}:{item.price}"`
(checksums.py, `calculate_order_checksum`). -/
def encodeLineItem (item : ShopifyLineItem) : String :=
  item.title ++ ":" ++ pyStrInt item.quantity ++ ":" ++ item.price

/-- `calculate_order_checksum` (checksums.py). -/
def calculate_order_checksum (order : ShopifyOrder) : String :=
  let line_items_data := order.line_items.map encodeLineItem
  sha256Hex (joinSep "|"
    [pyStrInt order.order_number,
     orDefault order.total_price "0.00",
     orDefault order.subtotal_price "0.00",
     orDefault order.total_tax "0.00",
     orEmpty order.financial_status,
     orEmpty order.email,
     joinSep ";" line_items_data])

/-- `has_changed` (checksums.py). -/
def has_changed (old_checksum : Option String) (new_checksum : String) : Bool :=
  match old_checksum with
  | none => true
  | some old => !(old == new_checksum)

/-! ## Xero-side models (src/models.py) -/

/-- `XeroAddress` (models.py). -/
structure XeroAddress where
  AddressType : String := "POBOX"
  AddressLine1 : Option String := none
  AddressLine2 : Option String := none
  City : Option String := none
  Region : Option String := none
  PostalCode : Option String := none
  Country : Option String := none
deriving Repr, DecidableEq

/-- `XeroPhone` (models.py). -/
structure XeroPhone where
  PhoneType : String := "DEFAULT"
  PhoneNumber : Option String := none
deriving Repr, DecidableEq

/-- `XeroContact` (models.py). -/
structure XeroContact where
  ContactID : Option String := none
  ContactStatus : String := "ACTIVE"
  Name : String
  FirstName : Option String := none
  LastName : Option String := none
  EmailAddress : Option String := none
  Addresses : List XeroAddress := []
  Phones : List XeroPhone := []
  IsCustomer : Bool := true
  IsSupplier : Bool := false
deriving Repr, DecidableEq

/-- `XeroItem` (models.py).  The float-valued `SalesDetails` /
`PurchaseDetails` payload dicts are omitted: nothing verified reads them. -/
structure XeroItem where
  ItemID : Option String := none
  Code : String
  Name : String
  Description : Option String := none
  IsSold : Bool := true
  IsPurchased : Bool := true
deriving Repr, DecidableEq

/-- `XeroInvoice` (models.py).  The float-valued line items and totals are
omitted: nothing verified reads them back.  `InvoiceType` embeds the source
field `Type` (a reserved word in Lean). -/
structure XeroInvoice where
  InvoiceID : Option String := none
  Reference : Option String := none
  InvoiceType : String := "ACCREC"
  Status : String := "AUTHORISED"
  ContactID : Option String := none
  Date : Option Nat := none
  DueDate : Option Nat := none
  CurrencyCode : String := "GBP"
deriving Repr, DecidableEq

/-! ## Conversions (src/models.py) -/

/-- `ShopifyCustomer.full_name` property (models.py): space-join of the truthy
name parts, or `"Unknown"` when both are missing/empty. -/
def ShopifyCustomer.full_name (c : ShopifyCustomer) : String :=
  let parts := ([c.first_name, c.last_name].filter strTruthy).map orEmpty
  orDefault (joinSep " " parts) "Unknown"

/-- `shopify_customer_to_xero_contact` (models.py). -/
def shopify_customer_to_xero_contact (customer : ShopifyCustomer) : XeroContact :=
  let addresses : List XeroAddress :=
    match customer.default_address with
    | some addr =>
      [{ AddressType := "POBOX", AddressLine1 := addr.address1,
         AddressLine2 := addr.address2, City := addr.city, Region := addr.province,
         PostalCode := addr.zip, Country := addr.country }]
    | none => []
  let phone_number : Option String :=
    if strTruthy customer.phone then customer.phone
    else match customer.default_address with
         | some addr => addr.phone
         | none => none
  let phones : List XeroPhone :=
    if strTruthy phone_number then
      [{ PhoneType := "DEFAULT", PhoneNumber := phone_number }]
    else []
  let name0 := customer.full_name
  let name :=
    if name0 == "Unknown" && strTruthy customer.email then orEmpty customer.email
    else if strTruthy customer.email then
      name0 ++ " (" ++ orEmpty customer.email ++ ")"
    else name0
  { Name := name, FirstName := customer.first_name, LastName := customer.last_name,
    EmailAddress := customer.email, Addresses := addresses, Phones := phones,
    IsCustomer := true, IsSupplier := false }

/-- `shopify_product_to_xero_item` (models.py): `none` when the primary
variant is missing or has no truthy SKU.  `Name` is the title truncated to 50
characters; the GL-code sales/purchase detail dicts are omitted (floats, never
read back). -/
def shopify_product_to_xero_item (product : ShopifyProduct) : Option XeroItem :=
  match product.primary_variant with
  | none => none
  | some variant =>
    if strTruthy variant.sku then
      some { Code := orEmpty variant.sku,
             Name := String.mk (product.title.data.take 50),
             Description := some product.title,
             IsSold := true, IsPurchased := true }
    else none

/-- `INVOICE_REFERENCE_PREFIX` (constants.py). -/
def invoiceReferenceStart : String := "SHOP-"

/-- `DEFAULT_GL_MAPPING.sales_account` (constants.py). -/
def defaultGlSalesAccount : String := "200"

/-- `shopify_order_to_xero_invoice` (models.py), restricted to the fields the
model carries (line items / totals are float payload, never read back). -/
def shopify_order_to_xero_invoice (order : ShopifyOrder) (contact_id : String)
    (now : Nat) : XeroInvoice :=
  let reference := invoiceReferenceStart ++ pyStrInt order.order_number
  let invoice_date := order.created_at.getD now
  let status := if order.financial_status == some "paid" then "AUTHORISED" else "DRAFT"
  { Reference := some reference, InvoiceType := "ACCREC", Status := status,
    ContactID := some contact_id, Date := some invoice_date,
    DueDate := some invoice_date, CurrencyCode := orDefault order.currency "GBP" }

/-! ## The mapping store (src/database.py)

Each table is a list of rows; every store operation is one atomic pure state
transformer, mirroring the per-call SQLite transactions. -/

/-- `SyncMapping` (models.py) / a `sync_mappings` row (database.py). -/
structure SyncMapping where
  shopify_id : String
  xero_id : String
  entity_type : String
  last_synced_at : Option Nat := none
  shopify_updated_at : Option Nat := none
  checksum : Option String := none
deriving Repr, DecidableEq

/-- A `sync_history` row (database.py). -/
structure HistoryRow where
  run_id : String
  started_at : Nat
  completed_at : Option Nat := none
  status : String
  entities_processed : Nat := 0
  errors : List String := []
deriving Repr, DecidableEq

/-- A `sync_errors` row (database.py). -/
structure ErrorRow where
  id : Nat
  entity_type : String
  shopify_id : String
  error_message : String
  occurred_at : Nat
  retry_count : Nat := 0
deriving Repr, DecidableEq

/-- The SQLite database state (database.py).  `next_error_id` models the
`sync_errors` AUTOINCREMENT counter. -/
structure Database where
  mappings : List SyncMapping := []
  history : List HistoryRow := []
  errors : List ErrorRow := []
  next_error_id : Nat := 0
deriving Repr, DecidableEq

/-- `Database.get_mapping` (database.py): `SELECT * FROM sync_mappings WHERE
shopify_id = ?` on the primary key. -/
def get_mapping (db : Database) (shopify_id : String) : Option SyncMapping :=
  db.mappings.find? (fun r => r.shopify_id == shopify_id)

/-- `Database.get_all_mappings` (database.py). -/
def get_all_mappings (db : Database) (entity_type : Option String) : List SyncMapping :=
  match entity_type with
  | some et => db.mappings.filter (fun r => r.entity_type == et)
  | none => db.mappings

/-- The `ON CONFLICT(shopify_id) DO UPDATE SET` column list of
`Database.upsert_mapping` (database.py): `entity_type` is not updated. -/
def applyConflictUpdate (m r : SyncMapping) : SyncMapping :=
  { r with xero_id := m.xero_id, last_synced_at := m.last_synced_at,
           shopify_updated_at := m.shopify_updated_at, checksum := m.checksum }

/-- `Database.upsert_mapping` (database.py): insert-or-replace keyed by
`shopify_id`. -/
def upsert_mapping (db : Database) (m : SyncMapping) : Database :=
  if db.mappings.any (fun r => r.shopify_id == m.shopify_id) then
    let updated := db.mappings.map
      (fun r => if r.shopify_id == m.shopify_id then applyConflictUpdate m r else r)
    { db with mappings := updated }
  else
    { db with mappings := db.mappings ++ [m] }

/-- `Database.start_sync_run` (database.py). -/
def start_sync_run (db : Database) (run_id : String) (now : Nat) : Database :=
  { db with history := db.history ++
      [{ run_id := run_id, started_at := now, completed_at := none,
         status := "running", entities_processed := 0, errors := [] }] }

/-- `Database.complete_sync_run` (database.py). -/
def complete_sync_run (db : Database) (run_id : String) (status : String)
    (entities_processed : Nat) (errors : List String) (now : Nat) : Database :=
  let updated := db.history.map
    (fun h => if h.run_id == run_id then
        { h with completed_at := some now, status := status,
                 entities_processed := entities_processed, errors := errors }
      else h)
  { db with history := updated }

/-- `Database.get_last_successful_sync` (database.py): the `success` row with
the greatest `completed_at` (`ORDER BY completed_at DESC LIMIT 1`; earlier row
kept on ties). -/
def get_last_successful_sync (db : Database) : Option HistoryRow :=
  (db.history.filter (fun h => h.status == "success")).foldl
    (fun acc h =>
      match acc with
      | none => some h
      | some b => if b.completed_at.getD 0 < h.completed_at.getD 0 then some h else some b)
    none

/-- The `SELECT ... WHERE entity_type = ? AND shopify_id = ? ORDER BY
occurred_at DESC LIMIT 1` of `Database.record_error` (database.py): the
matching row with the greatest `occurred_at` (earlier row kept on ties). -/
def selectExistingError (rows : List ErrorRow) (entity_type shopify_id : String) :
    Option ErrorRow :=
  (rows.filter (fun r => r.entity_type == entity_type && r.shopify_id == shopify_id)).foldl
    (fun acc r =>
      match acc with
      | none => some r
      | some b => if b.occurred_at < r.occurred_at then some r else some b)
    none

/-- `Database.record_error` (database.py): update the existing row for the
`(entity_type, shopify_id)` pair (bumping `retry_count`) or insert a fresh row
with `retry_count = 0`. -/
def record_error (db : Database) (entity_type shopify_id error_message : String)
    (now : Nat) : Database :=
  match selectExistingError db.errors entity_type shopify_id with
  | some existing =>
    let updated := db.errors.map
      (fun r => if r.id == existing.id then
          { r with error_message := error_message, occurred_at := now,
                   retry_count := r.retry_count + 1 }
        else r)
    { db with errors := updated }
  | none =>
    { db with
        errors := db.errors ++
          [{ id := db.next_error_id, entity_type := entity_type,
             shopify_id := shopify_id, error_message := error_message,
             occurred_at := now, retry_count := 0 }],
        next_error_id := db.next_error_id + 1 }

/-- `Database.clear_error` (database.py): `DELETE FROM sync_errors WHERE
shopify_id = ?` — keyed by `shopify_id` only, not by entity type. -/
def clear_error (db : Database) (shopify_id : String) : Database :=
  { db with errors := db.errors.filter (fun r => !(r.shopify_id == shopify_id)) }

/-! ## Remote adapters (src/shopify_client.py, src/xero_client.py)

A remote call either returns a value or raises an API error; both adapters
are modelled as environments of pure functions.  The thin argument guards of
the Xero client (`if not email: return None` etc.) are part of the wrappers
below.  Every call issued is recorded in a `RemoteCall` trace. -/

/-- Outcome of one remote API call; `err` models a raised
`ShopifyAPIError` / `XeroAPIError`. -/
inductive RemoteResult (α : Type) where
  | ok (value : α)
  | err (msg : String)
deriving Repr, DecidableEq

/-- One remote call, as recorded in a pass's call trace. -/
inductive RemoteCall where
  | xeroFindContactByEmail (email : String)
  | xeroCreateContact
  | xeroUpdateContact (contactId : Option String)
  | xeroFindItemByCode (code : String)
  | xeroCreateItem
  | xeroUpdateItem (itemId : Option String)
  | xeroGetItemById (itemId : String)
  | xeroFindInvoiceByReference (reference : String)
  | xeroCreateInvoice
  | shopifyUpdateEmailMarketing (customerId : Int)
  | shopifyFetchCustomers
  | shopifyFetchProducts
  | shopifyFetchOrders
deriving Repr, DecidableEq

/-- A create call against the destination (Xero). -/
def RemoteCall.isDestinationCreate : RemoteCall → Bool
  | xeroCreateContact => true
  | xeroCreateItem => true
  | xeroCreateInvoice => true
  | _ => false

/-- An update call against the destination (Xero). -/
def RemoteCall.isDestinationUpdate : RemoteCall → Bool
  | xeroUpdateContact _ => true
  | xeroUpdateItem _ => true
  | _ => false

/-- A mutating (create or update) call against the destination (Xero). -/
def RemoteCall.isDestinationMutation (c : RemoteCall) : Bool :=
  c.isDestinationCreate || c.isDestinationUpdate

/-- The Xero API surface the engine consumes (xero_client.py). -/
structure XeroEnv where
  find_contact_by_email : String → RemoteResult (Option XeroContact)
  create_contact : XeroContact → RemoteResult XeroContact
  update_contact : XeroContact → RemoteResult XeroContact
  find_item_by_code : String → RemoteResult (Option XeroItem)
  create_item : XeroItem → RemoteResult XeroItem
  update_item : XeroItem → RemoteResult XeroItem
  get_item_by_id : String → RemoteResult (Option XeroItem)
  find_invoice_by_reference : String → RemoteResult (Option XeroInvoice)
  create_invoice : XeroInvoice → RemoteResult XeroInvoice

/-- `XeroClient.find_contact_by_email` argument guard (xero_client.py):
falsy email returns `None` without a remote call. -/
def xero_find_contact_by_email (env : XeroEnv) (email : String) :
    RemoteResult (Option XeroContact) × List RemoteCall :=
  if email == "" then (RemoteResult.ok none, [])
  else (env.find_contact_by_email email, [RemoteCall.xeroFindContactByEmail email])

/-- `XeroClient.find_item_by_code` argument guard (xero_client.py). -/
def xero_find_item_by_code (env : XeroEnv) (code : String) :
    RemoteResult (Option XeroItem) × List RemoteCall :=
  if code == "" then (RemoteResult.ok none, [])
  else (env.find_item_by_code code, [RemoteCall.xeroFindItemByCode code])

/-- `XeroClient.get_item_by_id` argument guard (xero_client.py). -/
def xero_get_item_by_id (env : XeroEnv) (item_id : String) :
    RemoteResult (Option XeroItem) × List RemoteCall :=
  if item_id == "" then (RemoteResult.ok none, [])
  else (env.get_item_by_id item_id, [RemoteCall.xeroGetItemById item_id])

/-- `XeroClient.find_invoice_by_reference` argument guard (xero_client.py). -/
def xero_find_invoice_by_reference (env : XeroEnv) (reference : String) :
    RemoteResult (Option XeroInvoice) × List RemoteCall :=
  if reference == "" then (RemoteResult.ok none, [])
  else (env.find_invoice_by_reference reference, [RemoteCall.xeroFindInvoiceByReference reference])

/-- The Shopify API surface the engine consumes (shopify_client.py /
shopify_graphql_client.py), behind the `_fetch_entities` abstraction:
each fetch takes the `updated_at_min` lower bound and yields the full
entity list, or raises. -/
structure ShopifyEnv where
  fetch_all_customers : Option Nat → RemoteResult (List ShopifyCustomer)
  fetch_all_products : Option Nat → RemoteResult (List ShopifyProduct)
  fetch_all_orders : Option Nat → RemoteResult (List ShopifyOrder)

/-! ## Sync engine (src/sync_engine.py) -/

/-- The slice of `Settings` (config.py) the engine reads. -/
structure Settings where
  dry_run : Bool := false
  enable_email_marketing : Bool := false
  max_retries : Nat := 3
deriving Repr, DecidableEq

/-- `SyncEngine` construction state: settings, the two adapters, and the
effective dry-run flag. -/
structure SyncEngine where
  settings : Settings
  shopify : ShopifyEnv
  xero : XeroEnv
  dry_run : Bool

/-- `SyncEngine.__init__` (sync_engine.py): the effective dry-run flag is
`dry_run or settings.dry_run`. -/
def SyncEngine.init (settings : Settings) (shopify : ShopifyEnv) (xero : XeroEnv)
    (dryRun : Bool) : SyncEngine :=
  { settings := settings, shopify := shopify, xero := xero,
    dry_run := dryRun || settings.dry_run }

/-- Result of one per-entity pass: the `(action, error)` pair the
`_sync_single_*` method returns, the database state after the pass, and the
trace of remote calls the pass issued. -/
structure PassOutcome where
  action : String
  error : Option String
  db : Database
  calls : List RemoteCall
deriving Repr

/-- `SyncResult` (sync_engine.py). -/
structure SyncResult where
  success : Bool := true
  created : Nat := 0
  updated : Nat := 0
  skipped : Nat := 0
  errors : List String := []
deriving Repr, DecidableEq

/-- `SyncResult.total_processed` (sync_engine.py). -/
def SyncResult.total_processed (r : SyncResult) : Nat :=
  r.created + r.updated + r.skipped

/-- The no-active-match tail of `SyncEngine._create_customer_in_xero`
(sync_engine.py): convert, honour dry-run, create, and on success write the
mapping and clear errors; on failure leave the store untouched. -/
def create_customer_no_match (eng : SyncEngine) (db : Database)
    (customer : ShopifyCustomer) (checksum : String) (now : Nat)
    (calls : List RemoteCall) : PassOutcome :=
  let shopify_id := pyStrInt customer.id
  let xero_contact := shopify_customer_to_xero_contact customer
  if eng.dry_run then
    { action := "created", error := none, db := db, calls := calls }
  else
    match eng.xero.create_contact xero_contact with
    | RemoteResult.ok created =>
      let mapping : SyncMapping :=
        { shopify_id := shopify_id, xero_id := orEmpty created.ContactID,
          entity_type := "customer", last_synced_at := some now,
          shopify_updated_at := customer.updated_at, checksum := some checksum }
      { action := "created", error := none,
        db := clear_error (upsert_mapping db mapping) shopify_id,
        calls := calls ++ [RemoteCall.xeroCreateContact] }
    | RemoteResult.err e =>
      { action := "skipped",
        error := some ("Failed to create contact for customer " ++ shopify_id ++ ": " ++ e),
        db := db, calls := calls ++ [RemoteCall.xeroCreateContact] }

/-- `SyncEngine._create_customer_in_xero` (sync_engine.py): duplicate lookup
by email (lookup errors swallowed), skip an ARCHIVED match, link-and-push an
active match, otherwise fall through to create. -/
def create_customer_in_xero (eng : SyncEngine) (db : Database)
    (customer : ShopifyCustomer) (checksum : String) (now : Nat)
    (calls0 : List RemoteCall) : PassOutcome :=
  let shopify_id := pyStrInt customer.id
  let lookup :=
    if strTruthy customer.email then
      let fr := xero_find_contact_by_email eng.xero (orEmpty customer.email)
      match fr.1 with
      | RemoteResult.ok r => (r, fr.2)
      | RemoteResult.err _ => (none, fr.2)
    else (none, [])
  let existing_contact := lookup.1
  let calls1 := calls0 ++ lookup.2
  match existing_contact with
  | some ec =>
    if ec.ContactStatus == "ARCHIVED" then
      create_customer_no_match eng db customer checksum now calls1
    else
      let mapping : SyncMapping :=
        { shopify_id := shopify_id, xero_id := orEmpty ec.ContactID,
          entity_type := "customer", last_synced_at := some now,
          shopify_updated_at := customer.updated_at, checksum := some checksum }
      let db1 := clear_error (upsert_mapping db mapping) shopify_id
      let xero_contact :=
        { shopify_customer_to_xero_contact customer with ContactID := ec.ContactID }
      if eng.dry_run then
        { action := "updated", error := none, db := db1, calls := calls1 }
      else
        match eng.xero.update_contact xero_contact with
        | RemoteResult.ok _ =>
          { action := "updated", error := none, db := db1,
            calls := calls1 ++ [RemoteCall.xeroUpdateContact ec.ContactID] }
        | RemoteResult.err e =>
          { action := "skipped",
            error := some ("Failed to update existing contact for customer " ++
              shopify_id ++ ": " ++ e),
            db := db1, calls := calls1 ++ [RemoteCall.xeroUpdateContact ec.ContactID] }
  | none => create_customer_no_match eng db customer checksum now calls1

/-- `SyncEngine._update_customer_in_xero` (sync_engine.py). -/
def update_customer_in_xero (eng : SyncEngine) (db : Database)
    (customer : ShopifyCustomer) (mapping : SyncMapping) (new_checksum : String)
    (now : Nat) (calls0 : List RemoteCall) : PassOutcome :=
  let shopify_id := pyStrInt customer.id
  let xero_contact :=
    { shopify_customer_to_xero_contact customer with ContactID := some mapping.xero_id }
  if eng.dry_run then
    { action := "updated", error := none, db := db, calls := calls0 }
  else
    match eng.xero.update_contact xero_contact with
    | RemoteResult.ok _ =>
      let mapping' :=
        { mapping with last_synced_at := some now,
                       shopify_updated_at := customer.updated_at,
                       checksum := some new_checksum }
      { action := "updated", error := none,
        db := clear_error (upsert_mapping db mapping') shopify_id,
        calls := calls0 ++ [RemoteCall.xeroUpdateContact (some mapping.xero_id)] }
    | RemoteResult.err e =>
      { action := "skipped",
        error := some ("Failed to update contact for customer " ++ shopify_id ++ ": " ++ e),
        db := db, calls := calls0 ++ [RemoteCall.xeroUpdateContact (some mapping.xero_id)] }

/-- `SyncEngine._sync_single_customer` (sync_engine.py).  The optional email
marketing consent update happens first (its failures are swallowed); then the
mapping fast path, the changed-update path, or the create path. -/
def sync_single_customer (eng : SyncEngine) (db : Database)
    (customer : ShopifyCustomer) (now : Nat) : PassOutcome :=
  let shopify_id := pyStrInt customer.id
  let new_checksum := calculate_customer_checksum customer
  let marketing_calls : List RemoteCall :=
    if eng.settings.enable_email_marketing && !eng.dry_run then
      [RemoteCall.shopifyUpdateEmailMarketing customer.id]
    else []
  match get_mapping db shopify_id with
  | some mapping =>
    if !(has_changed mapping.checksum new_checksum) then
      { action := "skipped", error := none, db := db, calls := marketing_calls }
    else
      update_customer_in_xero eng db customer mapping new_checksum now marketing_calls
  | none =>
    create_customer_in_xero eng db customer new_checksum now marketing_calls

/-- The no-match tail of `SyncEngine._create_product_in_xero`
(sync_engine.py): honour dry-run, create, and on success write the mapping
and clear errors. -/
def create_product_no_match (eng : SyncEngine) (db : Database)
    (product : ShopifyProduct) (xero_item : XeroItem) (checksum : String)
    (now : Nat) (calls : List RemoteCall) : PassOutcome :=
  let shopify_id := pyStrInt product.id
  if eng.dry_run then
    { action := "created", error := none, db := db, calls := calls }
  else
    match eng.xero.create_item xero_item with
    | RemoteResult.ok created =>
      let mapping : SyncMapping :=
        { shopify_id := shopify_id, xero_id := orEmpty created.ItemID,
          entity_type := "product", last_synced_at := some now,
          shopify_updated_at := product.updated_at, checksum := some checksum }
      { action := "created", error := none,
        db := clear_error (upsert_mapping db mapping) shopify_id,
        calls := calls ++ [RemoteCall.xeroCreateItem] }
    | RemoteResult.err e =>
      { action := "skipped",
        error := some ("Failed to create item for product " ++ shopify_id ++ ": " ++ e),
        db := db, calls := calls ++ [RemoteCall.xeroCreateItem] }

/-- `SyncEngine._create_product_in_xero` (sync_engine.py): duplicate lookup
by SKU (lookup errors swallowed); any match found is linked-and-pushed —
there is no archived/inactive check on items — otherwise create. -/
def create_product_in_xero (eng : SyncEngine) (db : Database)
    (product : ShopifyProduct) (xero_item : XeroItem) (checksum : String)
    (now : Nat) : PassOutcome :=
  let shopify_id := pyStrInt product.id
  let lookup :=
    let fr := xero_find_item_by_code eng.xero xero_item.Code
    match fr.1 with
    | RemoteResult.ok r => (r, fr.2)
    | RemoteResult.err _ => (none, fr.2)
  let existing_item := lookup.1
  let calls1 := lookup.2
  match existing_item with
  | some ei =>
    let mapping : SyncMapping :=
      { shopify_id := shopify_id, xero_id := orEmpty ei.ItemID,
        entity_type := "product", last_synced_at := some now,
        shopify_updated_at := product.updated_at, checksum := some checksum }
    let db1 := clear_error (upsert_mapping db mapping) shopify_id
    let pushed := { xero_item with ItemID := ei.ItemID }
    if eng.dry_run then
      { action := "updated", error := none, db := db1, calls := calls1 }
    else
      match eng.xero.update_item pushed with
      | RemoteResult.ok _ =>
        { action := "updated", error := none, db := db1,
          calls := calls1 ++ [RemoteCall.xeroUpdateItem ei.ItemID] }
      | RemoteResult.err e =>
        { action := "skipped",
          error := some ("Failed to update existing item for product " ++
            shopify_id ++ ": " ++ e),
          db := db1, calls := calls1 ++ [RemoteCall.xeroUpdateItem ei.ItemID] }
  | none => create_product_no_match eng db product xero_item checksum now calls1

/-- The plain-update tail of `SyncEngine._update_product_in_xero`
(sync_engine.py): no SKU change detected, update in place. -/
def update_product_plain (eng : SyncEngine) (db : Database)
    (product : ShopifyProduct) (xero_item : XeroItem) (mapping : SyncMapping)
    (new_checksum : String) (now : Nat) (calls : List RemoteCall) : PassOutcome :=
  let shopify_id := pyStrInt product.id
  let pushed := { xero_item with ItemID := some mapping.xero_id }
  if eng.dry_run then
    { action := "updated", error := none, db := db, calls := calls }
  else
    match eng.xero.update_item pushed with
    | RemoteResult.ok _ =>
      let mapping' :=
        { mapping with last_synced_at := some now,
                       shopify_updated_at := product.updated_at,
                       checksum := some new_checksum }
      { action := "updated", error := none,
        db := clear_error (upsert_mapping db mapping') shopify_id,
        calls := calls ++ [RemoteCall.xeroUpdateItem (some mapping.xero_id)] }
    | RemoteResult.err e =>
      { action := "skipped",
        error := some ("Failed to update item for product " ++ shopify_id ++ ": " ++ e),
        db := db, calls := calls ++ [RemoteCall.xeroUpdateItem (some mapping.xero_id)] }

/-- `SyncEngine._update_product_in_xero` (sync_engine.py): fetch the current
item to detect a SKU change; on a change (not dry-run) archive the old item
(failures swallowed), create a new one and repoint the mapping; otherwise a
plain update.  Fetch failures fall through to the plain update. -/
def update_product_in_xero (eng : SyncEngine) (db : Database)
    (product : ShopifyProduct) (xero_item : XeroItem) (mapping : SyncMapping)
    (new_checksum : String) (now : Nat) : PassOutcome :=
  let shopify_id := pyStrInt product.id
  let fetch := xero_get_item_by_id eng.xero mapping.xero_id
  match fetch.1 with
  | RemoteResult.err _ =>
    update_product_plain eng db product xero_item mapping new_checksum now fetch.2
  | RemoteResult.ok current? =>
    match current? with
    | none => update_product_plain eng db product xero_item mapping new_checksum now fetch.2
    | some current =>
      if current.Code == xero_item.Code then
        update_product_plain eng db product xero_item mapping new_checksum now fetch.2
      else if eng.dry_run then
        { action := "updated", error := none, db := db, calls := fetch.2 }
      else
        let archived :=
          { current with IsSold := false, IsPurchased := false,
                         Name := "[ARCHIVED] " ++ current.Name }
        let archive_calls := [RemoteCall.xeroUpdateItem archived.ItemID]
        let calls1 := fetch.2 ++ archive_calls
        match eng.xero.create_item xero_item with
        | RemoteResult.ok created =>
          let mapping' :=
            { mapping with xero_id := orEmpty created.ItemID,
                           last_synced_at := some now,
                           shopify_updated_at := product.updated_at,
                           checksum := some new_checksum }
          { action := "created", error := none,
            db := clear_error (upsert_mapping db mapping') shopify_id,
            calls := calls1 ++ [RemoteCall.xeroCreateItem] }
        | RemoteResult.err e =>
          { action := "skipped",
            error := some ("Failed to create new item after SKU change: " ++ e),
            db := db, calls := calls1 ++ [RemoteCall.xeroCreateItem] }

/-- `SyncEngine._sync_single_product` (sync_engine.py): a product with no
convertible SKU is silently skipped; otherwise the mapping fast path, the
changed-update path, or the create path. -/
def sync_single_product (eng : SyncEngine) (db : Database)
    (product : ShopifyProduct) (now : Nat) : PassOutcome :=
  let shopify_id := pyStrInt product.id
  match shopify_product_to_xero_item product with
  | none => { action := "skipped", error := none, db := db, calls := [] }
  | some xero_item =>
    let new_checksum := calculate_product_checksum product
    match get_mapping db shopify_id with
    | some mapping =>
      if !(has_changed mapping.checksum new_checksum) then
        { action := "skipped", error := none, db := db, calls := [] }
      else
        update_product_in_xero eng db product xero_item mapping new_checksum now
    | none =>
      create_product_in_xero eng db product xero_item new_checksum now

/-- `SyncEngine._get_customer_contact_id` (sync_engine.py): mapping lookup by
the order's customer id (must be a customer mapping), then email search
(errors swallowed). -/
def get_customer_contact_id (eng : SyncEngine) (db : Database)
    (order : ShopifyOrder) : Option String × List RemoteCall :=
  let via_mapping : Option String :=
    match order.customer with
    | some cust =>
      if cust.id == 0 then none
      else
        match get_mapping db (pyStrInt cust.id) with
        | some m => if m.entity_type == "customer" then some m.xero_id else none
        | none => none
    | none => none
  match via_mapping with
  | some cid => (some cid, [])
  | none =>
    let email : Option String :=
      if strTruthy order.email then order.email
      else match order.customer with
           | some cust => cust.email
           | none => none
    if strTruthy email then
      let fr := xero_find_contact_by_email eng.xero (orEmpty email)
      match fr.1 with
      | RemoteResult.ok (some contact) => (contact.ContactID, fr.2)
      | RemoteResult.ok none => (none, fr.2)
      | RemoteResult.err _ => (none, fr.2)
    else (none, [])

/-- `SyncEngine._create_order_in_xero` (sync_engine.py): duplicate lookup by
invoice reference (errors swallowed); an existing invoice is linked with
action `skipped` and no push; otherwise resolve the contact and create. -/
def create_order_in_xero (eng : SyncEngine) (db : Database)
    (order : ShopifyOrder) (checksum : String) (now : Nat) : PassOutcome :=
  let shopify_id := pyStrInt order.id
  let reference := invoiceReferenceStart ++ pyStrInt order.order_number
  let lookup :=
    let fr := xero_find_invoice_by_reference eng.xero reference
    match fr.1 with
    | RemoteResult.ok r => (r, fr.2)
    | RemoteResult.err _ => (none, fr.2)
  let existing_invoice := lookup.1
  let calls1 := lookup.2
  match existing_invoice with
  | some inv =>
    let mapping : SyncMapping :=
      { shopify_id := shopify_id, xero_id := orEmpty inv.InvoiceID,
        entity_type := "order", last_synced_at := some now,
        shopify_updated_at := order.updated_at, checksum := some checksum }
    { action := "skipped", error := none,
      db := clear_error (upsert_mapping db mapping) shopify_id, calls := calls1 }
  | none =>
    let contact := get_customer_contact_id eng db order
    let calls2 := calls1 ++ contact.2
    if !(strTruthy contact.1) then
      { action := "skipped",
        error := some ("No Xero contact found for order " ++ shopify_id),
        db := db, calls := calls2 }
    else
      let xero_invoice := shopify_order_to_xero_invoice order (orEmpty contact.1) now
      if eng.dry_run then
        { action := "created", error := none, db := db, calls := calls2 }
      else
        match eng.xero.create_invoice xero_invoice with
        | RemoteResult.ok created =>
          let mapping : SyncMapping :=
            { shopify_id := shopify_id, xero_id := orEmpty created.InvoiceID,
              entity_type := "order", last_synced_at := some now,
              shopify_updated_at := order.updated_at, checksum := some checksum }
          { action := "created", error := none,
            db := clear_error (upsert_mapping db mapping) shopify_id,
            calls := calls2 ++ [RemoteCall.xeroCreateInvoice] }
        | RemoteResult.err e =>
          { action := "skipped",
            error := some ("Failed to create invoice for order " ++ shopify_id ++ ": " ++ e),
            db := db, calls := calls2 ++ [RemoteCall.xeroCreateInvoice] }

/-- `SyncEngine._sync_single_order` (sync_engine.py): the mapping fast path;
for a changed mapped order only the stored checksum and timestamp are
refreshed (invoices are immutable after creation) and the action is
`skipped`; a new order goes to the create path. -/
def sync_single_order (eng : SyncEngine) (db : Database) (order : ShopifyOrder)
    (now : Nat) : PassOutcome :=
  let shopify_id := pyStrInt order.id
  let new_checksum := calculate_order_checksum order
  match get_mapping db shopify_id with
  | some mapping =>
    if !(has_changed mapping.checksum new_checksum) then
      { action := "skipped", error := none, db := db, calls := [] }
    else
      let mapping' :=
        { mapping with checksum := some new_checksum, last_synced_at := some now }
      { action := "skipped", error := none,
        db := upsert_mapping db mapping', calls := [] }
  | none => create_order_in_xero eng db order new_checksum now

/-- The shared `elif action == ...` counting of the three phase loops
(sync_engine.py). -/
def countAction (result : SyncResult) (action : String) : SyncResult :=
  if action == "created" then { result with created := result.created + 1 }
  else if action == "updated" then { result with updated := result.updated + 1 }
  else if action == "skipped" then { result with skipped := result.skipped + 1 }
  else result

/-- One iteration of the `sync_customers` per-customer loop
(sync_engine.py): on error, append it to the phase result and record it in
the error store; otherwise count the action. -/
def customer_step (eng : SyncEngine) (now : Nat)
    (acc : SyncResult × Database × List RemoteCall) (customer : ShopifyCustomer) :
    SyncResult × Database × List RemoteCall :=
  let (result, db, calls) := acc
  let out := sync_single_customer eng db customer now
  match out.error with
  | some err =>
    ({ result with errors := result.errors ++ [err] },
     record_error out.db "customer" (pyStrInt customer.id) err now,
     calls ++ out.calls)
  | none => (countAction result out.action, out.db, calls ++ out.calls)

/-- The `updated_at_min` computation shared by the three phases
(sync_engine.py): `None` under force, else the completion time of the last
successful run. -/
def updatedAtMin (db : Database) (force : Bool) : Option Nat :=
  if force then none
  else (get_last_successful_sync db).bind (fun h => h.completed_at)

/-- `SyncEngine.sync_customers` (sync_engine.py): fetch (a failure marks the
phase failed with a `Fetch failed:` error), then the per-customer loop. -/
def sync_customers (eng : SyncEngine) (db : Database) (force : Bool) (now : Nat) :
    SyncResult × Database × List RemoteCall :=
  match eng.shopify.fetch_all_customers (updatedAtMin db force) with
  | RemoteResult.err e =>
    ({ success := false, errors := ["Fetch failed: " ++ e] }, db,
     [RemoteCall.shopifyFetchCustomers])
  | RemoteResult.ok customers =>
    customers.foldl (customer_step eng now)
      ({ success := true }, db, [RemoteCall.shopifyFetchCustomers])

/-- One iteration of the `sync_products` per-product loop (sync_engine.py). -/
def product_step (eng : SyncEngine) (now : Nat)
    (acc : SyncResult × Database × List RemoteCall) (product : ShopifyProduct) :
    SyncResult × Database × List RemoteCall :=
  let (result, db, calls) := acc
  let out := sync_single_product eng db product now
  match out.error with
  | some err =>
    ({ result with errors := result.errors ++ [err] },
     record_error out.db "product" (pyStrInt product.id) err now,
     calls ++ out.calls)
  | none => (countAction result out.action, out.db, calls ++ out.calls)

/-- `SyncEngine.sync_products` (sync_engine.py). -/
def sync_products (eng : SyncEngine) (db : Database) (force : Bool) (now : Nat) :
    SyncResult × Database × List RemoteCall :=
  match eng.shopify.fetch_all_products (updatedAtMin db force) with
  | RemoteResult.err e =>
    ({ success := false, errors := ["Fetch failed: " ++ e] }, db,
     [RemoteCall.shopifyFetchProducts])
  | RemoteResult.ok products =>
    products.foldl (product_step eng now)
      ({ success := true }, db, [RemoteCall.shopifyFetchProducts])

/-- `SyncEngine._build_sku_gl_mapping` (sync_engine.py): every product
mapping's `shopify_id` is sent to the default sales account code.  (Its
output feeds only the omitted float line-item payload.) -/
def build_sku_gl_mapping (db : Database) : List (String × String) :=
  (get_all_mappings db (some "product")).map
    (fun m => (m.shopify_id, defaultGlSalesAccount))

/-- One iteration of the `sync_orders` per-order loop (sync_engine.py). -/
def order_step (eng : SyncEngine) (now : Nat)
    (acc : SyncResult × Database × List RemoteCall) (order : ShopifyOrder) :
    SyncResult × Database × List RemoteCall :=
  let (result, db, calls) := acc
  let out := sync_single_order eng db order now
  match out.error with
  | some err =>
    ({ result with errors := result.errors ++ [err] },
     record_error out.db "order" (pyStrInt order.id) err now,
     calls ++ out.calls)
  | none => (countAction result out.action, out.db, calls ++ out.calls)

/-- `SyncEngine.sync_orders` (sync_engine.py): builds the SKU→GL map, then
fetches and loops. -/
def sync_orders (eng : SyncEngine) (db : Database) (force : Bool) (now : Nat) :
    SyncResult × Database × List RemoteCall :=
  let _sku_to_gl := build_sku_gl_mapping db
  match eng.shopify.fetch_all_orders (updatedAtMin db force) with
  | RemoteResult.err e =>
    ({ success := false, errors := ["Fetch failed: " ++ e] }, db,
     [RemoteCall.shopifyFetchOrders])
  | RemoteResult.ok orders =>
    orders.foldl (order_step eng now)
      ({ success := true }, db, [RemoteCall.shopifyFetchOrders])

/-- `SyncStats` (sync_engine.py). -/
structure SyncStats where
  run_id : String
  started_at : Nat
  completed_at : Option Nat := none
  customers : Option SyncResult := none
  products : Option SyncResult := none
  orders : Option SyncResult := none
deriving Repr

/-- `SyncStats.total_errors` (sync_engine.py). -/
def SyncStats.total_errors (s : SyncStats) : List String :=
  ((s.customers.map SyncResult.errors).getD []) ++
  ((s.products.map SyncResult.errors).getD []) ++
  ((s.orders.map SyncResult.errors).getD [])

/-- `SyncStats.total_processed` (sync_engine.py). -/
def SyncStats.total_processed (s : SyncStats) : Nat :=
  ((s.customers.map SyncResult.total_processed).getD 0) +
  ((s.products.map SyncResult.total_processed).getD 0) +
  ((s.orders.map SyncResult.total_processed).getD 0)

/-- `SyncEngine.run_full_sync` (sync_engine.py): record the run start, run
the three phases in the fixed order (each phase catches its own failures),
then finalize the run record once with the aggregate status. -/
def run_full_sync (eng : SyncEngine) (db : Database) (run_id : String)
    (now : Nat) (force : Bool) : SyncStats × Database × List RemoteCall :=
  let db0 := start_sync_run db run_id now
  let resc := sync_customers eng db0 force now
  let resp := sync_products eng resc.2.1 force now
  let reso := sync_orders eng resp.2.1 force now
  let stats : SyncStats :=
    { run_id := run_id, started_at := now, completed_at := some now,
      customers := some resc.1, products := some resp.1, orders := some reso.1 }
  let status := if stats.total_errors.isEmpty then "success" else "failed"
  let db4 := complete_sync_run reso.2.1 run_id status
    stats.total_processed stats.total_errors now
  (stats, db4, resc.2.2 ++ resp.2.2 ++ reso.2.2)

/-! ## Statement-level predicates -/

/-- The `sync_mappings` PRIMARY KEY invariant: at most one row per
`shopify_id`. -/
def UniqueMappings (db : Database) : Prop :=
  db.mappings.Pairwise (fun a b => a.shopify_id ≠ b.shopify_id)

/-- At most one error row per `(entity_type, shopify_id)` pair. -/
def ErrorsAtMostOncePerKey (rows : List ErrorRow) : Prop :=
  rows.Pairwise (fun a b => ¬(a.entity_type = b.entity_type ∧ a.shopify_id = b.shopify_id))

/-- Well-formedness of the error table: keys unique, row ids unique, and all
ids below the AUTOINCREMENT counter. -/
def ErrorsWellFormed (db : Database) : Prop :=
  ErrorsAtMostOncePerKey db.errors ∧
  db.errors.Pairwise (fun a b => a.id ≠ b.id) ∧
  ∀ r ∈ db.errors, r.id < db.next_error_id

/-- A sequence of `record_error` calls, each given as
`(entity_type, shopify_id, message, timestamp)`. -/
def applyRecordErrors (db : Database)
    (ops : List (String × String × String × Nat)) : Database :=
  ops.foldl (fun d op => record_error d op.1 op.2.1 op.2.2.1 op.2.2.2) db

/-! ## Concrete fixtures

Closed environments and entities used to instantiate the verified properties
on concrete inputs. -/

/-- A Xero environment where every lookup finds nothing and every mutation
succeeds, echoing the payload back with a fresh destination id. -/
def xeroEnvBase : XeroEnv :=
  { find_contact_by_email := fun _ => RemoteResult.ok none,
    create_contact := fun c => RemoteResult.ok { c with ContactID := some "new-c" },
    update_contact := fun c => RemoteResult.ok c,
    find_item_by_code := fun _ => RemoteResult.ok none,
    create_item := fun i => RemoteResult.ok { i with ItemID := some "new-i" },
    update_item := fun i => RemoteResult.ok i,
    get_item_by_id := fun _ => RemoteResult.ok none,
    find_invoice_by_reference := fun _ => RemoteResult.ok none,
    create_invoice := fun i => RemoteResult.ok { i with InvoiceID := some "new-v" } }

/-- A Shopify environment with nothing to fetch. -/
def shopEnvEmpty : ShopifyEnv :=
  { fetch_all_customers := fun _ => RemoteResult.ok [],
    fetch_all_products := fun _ => RemoteResult.ok [],
    fetch_all_orders := fun _ => RemoteResult.ok [] }

/-- An active destination contact with id `d1`. -/
def contactD1 : XeroContact :=
  { ContactID := some "d1", ContactStatus := "ACTIVE", Name := "A B (a@x.com)" }

/-- An ARCHIVED destination contact. -/
def contactArchived : XeroContact :=
  { ContactID := some "old1", ContactStatus := "ARCHIVED", Name := "Old" }

/-- An inactive (archived-style) destination item with id `p1`: not sold,
not purchased, name carrying the archival marker. -/
def itemP1Archived : XeroItem :=
  { ItemID := some "p1", Code := "SKU1", Name := "[ARCHIVED] Old",
    IsSold := false, IsPurchased := false }

/-- An existing destination invoice with id `d1` for reference `SHOP-1001`. -/
def invoiceD1 : XeroInvoice :=
  { InvoiceID := some "d1", Reference := some "SHOP-1001" }

/-- Concrete customer: `{id: 1, email: "a@x.com", first: "A", last: "B"}`. -/
def custA : ShopifyCustomer :=
  { id := 1, email := some "a@x.com", first_name := some "A", last_name := some "B" }

/-- Concrete product with SKU `SKU1`. -/
def prodA : ShopifyProduct :=
  { id := 2, title := "Widget",
    variants := [{ id := 21, product_id := 2, price := "9.99", sku := some "SKU1" }] }

/-- Concrete order number 1001 with one line item. -/
def ordA : ShopifyOrder :=
  { id := 9, order_number := 1001,
    line_items := [{ id := 91, title := "Widget", quantity := 2, price := "9.99" }] }

/-- The engine over the base environments, mutations live. -/
def engPlain : SyncEngine := SyncEngine.init {} shopEnvEmpty xeroEnvBase false

/-- A stored order mapping whose fingerprint is stale. -/
def mStaleOrder : SyncMapping :=
  { shopify_id := "9", xero_id := "v1", entity_type := "order", checksum := some "stale" }

/-- A store holding only the stale order mapping. -/
def dbStaleOrder : Database := { mappings := [mStaleOrder] }

/-- A stored customer mapping whose fingerprint matches `custA`. -/
def mFreshCust : SyncMapping :=
  { shopify_id := "1", xero_id := "d1", entity_type := "customer",
    checksum := some (calculate_customer_checksum custA) }

/-- A store holding only the fresh customer mapping. -/
def dbFreshCust : Database := { mappings := [mFreshCust] }

/-- Xero environment whose contact lookup finds the active `d1` contact. -/
def xeroEnvLinkContact : XeroEnv :=
  { xeroEnvBase with find_contact_by_email := fun _ => RemoteResult.ok (some contactD1) }

/-- Xero environment whose contact lookup finds only an ARCHIVED contact. -/
def xeroEnvArchivedContact : XeroEnv :=
  { xeroEnvBase with find_contact_by_email := fun _ => RemoteResult.ok (some contactArchived) }

/-- Xero environment whose item lookup finds the inactive `p1` item. -/
def xeroEnvLinkItem : XeroEnv :=
  { xeroEnvBase with find_item_by_code := fun _ => RemoteResult.ok (some itemP1Archived) }

/-- Xero environment whose invoice lookup finds the existing `d1` invoice. -/
def xeroEnvLinkInvoice : XeroEnv :=
  { xeroEnvBase with find_invoice_by_reference := fun _ => RemoteResult.ok (some invoiceD1) }

/-- Xero environment whose contact creation raises. -/
def xeroEnvCreateFails : XeroEnv :=
  { xeroEnvBase with create_contact := fun _ => RemoteResult.err "boom" }

/-- Shopify environment yielding exactly `custA`. -/
def shopEnvOneCust : ShopifyEnv :=
  { shopEnvEmpty with fetch_all_customers := fun _ => RemoteResult.ok [custA] }

/-- Shopify environment whose customer fetch raises. -/
def shopEnvCustFetchErr : ShopifyEnv :=
  { shopEnvEmpty with fetch_all_customers := fun _ => RemoteResult.err "boom" }

/-- Dry-run engine whose contact lookup finds the active `d1` contact. -/
def engDryLink : SyncEngine := SyncEngine.init {} shopEnvEmpty xeroEnvLinkContact true

/-- Live engine whose invoice lookup finds the existing `d1` invoice. -/
def engLinkInvoice : SyncEngine := SyncEngine.init {} shopEnvEmpty xeroEnvLinkInvoice false

/-- Live engine whose item lookup finds the inactive `p1` item. -/
def engLinkItem : SyncEngine := SyncEngine.init {} shopEnvEmpty xeroEnvLinkItem false

/-- Live engine whose contact lookup finds only an ARCHIVED contact. -/
def engArchivedContact : SyncEngine :=
  SyncEngine.init {} shopEnvEmpty xeroEnvArchivedContact false

/-- Live engine fetching one customer whose contact creation raises. -/
def engCreateFails : SyncEngine := SyncEngine.init {} shopEnvOneCust xeroEnvCreateFails false

/-- Live engine whose customer fetch raises. -/
def engFetchErr : SyncEngine := SyncEngine.init {} shopEnvCustFetchErr xeroEnvBase false

/-- An error table with rows of all three entity types, two sharing the
source id `1`. -/
def dbMixedErrors : Database :=
  { errors :=
      [{ id := 0, entity_type := "product", shopify_id := "1",
         error_message := "p", occurred_at := 1, retry_count := 0 },
       { id := 1, entity_type := "customer", shopify_id := "1",
         error_message := "c", occurred_at := 2, retry_count := 0 },
       { id := 2, entity_type := "order", shopify_id := "7",
         error_message := "o", occurred_at := 3, retry_count := 1 }],
    next_error_id := 3 }

/-- An error table with a single customer error for source id `7`. -/
def dbOneError : Database :=
  { errors :=
      [{ id := 0, entity_type := "customer", shopify_id := "7",
         error_message := "x", occurred_at := 1, retry_count := 2 }],
    next_error_id := 1 }

/-- A customer with no email at all. -/
def custNoEmail : ShopifyCustomer := { id := 1 }

/-- A customer with a default address, for fingerprint sensitivity checks. -/
def custAddr : ShopifyCustomer :=
  { id := 3, email := some "b@x.com", first_name := some "C", last_name := some "D",
    default_address := some { address1 := some "1 High St", city := some "Leeds",
                              zip := some "LS1", country := some "UK",
                              phone := some "0113" } }

/-- The default address carried by `custAddr`. -/
def addrA : ShopifyAddress :=
  { address1 := some "1 High St", city := some "Leeds", zip := some "LS1",
    country := some "UK", phone := some "0113" }

/-- The single line item of `ordA`. -/
def liA : ShopifyLineItem :=
  { id := 91, title := "Widget", quantity := 2, price := "9.99" }

/-! ## String and join lemmas -/

theorem strData_append (a b : String) : (a ++ b).data = a.data ++ b.data := by
  cases a; cases b; rfl

theorem str_ext {a b : String} (h : a.data = b.data) : a = b := by
  cases a; cases b; exact congrArg String.mk h

theorem str_append_cancel_right {a b c : String} (h : a ++ c = b ++ c) : a = b := by
  apply str_ext
  have hd : a.data ++ c.data = b.data ++ c.data := by
    rw [← strData_append, ← strData_append, h]
  exact List.append_cancel_right hd

theorem str_append_cancel_left {a b c : String} (h : c ++ a = c ++ b) : a = b := by
  apply str_ext
  have hd : c.data ++ a.data = c.data ++ b.data := by
    rw [← strData_append, ← strData_append, h]
  exact List.append_cancel_left hd

theorem joinSep_cons_of_ne_nil (sep s : String) (l : List String) (h : l ≠ []) :
    joinSep sep (s :: l) = s ++ sep ++ joinSep sep l := by
  cases l with
  | nil => exact absurd rfl h
  | cons a t => rfl

/-- A pipe-style join separates positions: if two joined lists agree
everywhere except possibly at one position, the joins are equal only when
that position agrees too. -/
theorem joinSep_eq_at (sep : String) (pre : List String) (x y : String)
    (post : List String)
    (h : joinSep sep (pre ++ x :: post) = joinSep sep (pre ++ y :: post)) : x = y := by
  induction pre with
  | nil =>
    cases post with
    | nil => simpa [joinSep] using h
    | cons p ps =>
      simp only [List.nil_append] at h
      rw [joinSep_cons_of_ne_nil sep x (p :: ps) (by simp),
          joinSep_cons_of_ne_nil sep y (p :: ps) (by simp)] at h
      exact str_append_cancel_right (str_append_cancel_right h)
  | cons a pre ih =>
    simp only [List.cons_append] at h
    rw [joinSep_cons_of_ne_nil sep a (pre ++ x :: post) (by simp),
        joinSep_cons_of_ne_nil sep a (pre ++ y :: post) (by simp)] at h
    exact ih (str_append_cancel_left (h := h))

/-! ## Decimal rendering lemmas -/

theorem pyDigitsAux_eq_digits (fuel n : Nat) (h : n ≤ fuel) :
    pyDigitsAux fuel n = Nat.digits 10 n := by
  induction fuel generalizing n with
  | zero =>
    have hn : n = 0 := Nat.le_zero.mp h
    subst hn
    simp [pyDigitsAux]
  | succ fuel ih =>
    by_cases hz : n = 0
    · subst hz; simp [pyDigitsAux]
    · have hpos : 0 < n := Nat.pos_of_ne_zero hz
      have hdiv : n / 10 ≤ fuel := by
        have : n / 10 < n := Nat.div_lt_self hpos (by norm_num)
        omega
      rw [Nat.digits_def' (by norm_num : (1:Nat) < 10) hpos]
      simp only [pyDigitsAux, hz, if_false]
      rw [ih (n / 10) hdiv]

theorem pyDigits_eq_digits (n : Nat) : pyDigits n = Nat.digits 10 n :=
  pyDigitsAux_eq_digits n n le_rfl

theorem digitChar_inj_of_lt :
    ∀ a, a < 10 → ∀ b, b < 10 → Nat.digitChar a = Nat.digitChar b → a = b := by
  decide

theorem digitChar_ne_dash : ∀ d, d < 10 → Nat.digitChar d ≠ Char.ofNat 45 := by
  decide

theorem map_digitChar_inj :
    ∀ l1 l2 : List Nat, (∀ d ∈ l1, d < 10) → (∀ d ∈ l2, d < 10) →
      l1.map Nat.digitChar = l2.map Nat.digitChar → l1 = l2 := by
  intro l1
  induction l1 with
  | nil =>
    intro l2 _ _ h
    cases l2 with
    | nil => rfl
    | cons b t => simp at h
  | cons a t1 ih =>
    intro l2 h1 h2 h
    cases l2 with
    | nil => simp at h
    | cons b t2 =>
      simp only [List.map_cons, List.cons.injEq] at h
      have ha : a = b :=
        digitChar_inj_of_lt a (h1 a (by simp)) b (h2 b (by simp)) h.1
      have ht : t1 = t2 :=
        ih t2 (fun d hd => h1 d (by simp [hd])) (fun d hd => h2 d (by simp [hd])) h.2
      rw [ha, ht]

theorem pyStrNat_data_of_ne_zero {n : Nat} (h : n ≠ 0) :
    (pyStrNat n).data = ((Nat.digits 10 n).map Nat.digitChar).reverse := by
  simp [pyStrNat, h, pyDigits_eq_digits]

theorem dash_not_mem_pyStrNat (n : Nat) : Char.ofNat 45 ∉ (pyStrNat n).data := by
  by_cases h : n = 0
  · subst h; decide
  · rw [pyStrNat_data_of_ne_zero h]
    intro hmem
    rw [List.mem_reverse, List.mem_map] at hmem
    obtain ⟨d, hd, hdc⟩ := hmem
    exact digitChar_ne_dash d (Nat.digits_lt_base (by norm_num) hd) hdc

theorem pyStrNat_eq_zero_str {n : Nat} (h : (pyStrNat n).data = [Char.ofNat 48]) :
    n = 0 := by
  by_contra hn
  rw [pyStrNat_data_of_ne_zero hn] at h
  have hrev : (Nat.digits 10 n).map Nat.digitChar = [Char.ofNat 48] := by
    have h2 := congrArg List.reverse h
    simpa using h2
  cases hdig : Nat.digits 10 n with
  | nil => rw [hdig] at hrev; simp at hrev
  | cons d t =>
    rw [hdig] at hrev
    simp only [List.map_cons, List.cons.injEq] at hrev
    have ht : t = [] := by
      have := hrev.2
      cases t with
      | nil => rfl
      | cons x xs => simp at this
    have hdlt : d < 10 := by
      apply Nat.digits_lt_base (by norm_num)
      rw [hdig]; simp
    have hd0 : d = 0 := by
      apply digitChar_inj_of_lt d hdlt 0 (by norm_num)
      rw [hrev.1]; decide
    have hof := Nat.ofDigits_digits 10 n
    rw [hdig, ht, hd0] at hof
    simp [Nat.ofDigits] at hof
    exact hn hof.symm

theorem pyStrNat_inj {m n : Nat} (h : pyStrNat m = pyStrNat n) : m = n := by
  have hzero : (pyStrNat 0).data = [Char.ofNat 48] := by decide
  by_cases hm : m = 0
  · subst hm
    have : (pyStrNat n).data = [Char.ofNat 48] := by rw [← congrArg String.data h, hzero]
    exact (pyStrNat_eq_zero_str this).symm
  · by_cases hn : n = 0
    · subst hn
      have : (pyStrNat m).data = [Char.ofNat 48] := by rw [congrArg String.data h, hzero]
      exact pyStrNat_eq_zero_str this
    · have hd := congrArg String.data h
      rw [pyStrNat_data_of_ne_zero hm, pyStrNat_data_of_ne_zero hn] at hd
      have hmap := List.reverse_injective hd
      have := map_digitChar_inj _ _
        (fun d hdm => Nat.digits_lt_base (by norm_num) hdm)
        (fun d hdn => Nat.digits_lt_base (by norm_num) hdn) hmap
      exact Nat.digits_inj_iff.mp this

theorem pyStrInt_inj {i j : Int} (h : pyStrInt i = pyStrInt j) : i = j := by
  unfold pyStrInt at h
  by_cases hi : i < 0 <;> by_cases hj : j < 0 <;> simp only [hi, hj, if_true, if_false] at h
  · have := pyStrNat_inj (str_append_cancel_left (h := h))
    omega
  · exfalso
    have hd := congrArg String.data h
    rw [strData_append] at hd
    have hmem : Char.ofNat 45 ∈ (pyStrNat j.toNat).data := by
      rw [← hd]
      have : ("-" : String).data = [Char.ofNat 45] := by decide
      rw [this]
      simp
    exact dash_not_mem_pyStrNat _ hmem
  · exfalso
    have hd := congrArg String.data h
    rw [strData_append] at hd
    have hmem : Char.ofNat 45 ∈ (pyStrNat i.toNat).data := by
      rw [hd]
      have : ("-" : String).data = [Char.ofNat 45] := by decide
      rw [this]
      simp
    exact dash_not_mem_pyStrNat _ hmem
  · have := pyStrNat_inj h
    omega

/-! ## Mapping store lemmas -/

theorem applyConflictUpdate_shopify_id (m r : SyncMapping) :
    (applyConflictUpdate m r).shopify_id = r.shopify_id := rfl

theorem get_mapping_some_elim {db : Database} {sid : String} {m : SyncMapping}
    (h : get_mapping db sid = some m) : m ∈ db.mappings ∧ m.shopify_id = sid := by
  refine ⟨List.mem_of_find?_eq_some h, ?_⟩
  have := List.find?_some h
  simpa using this

theorem find?_upsert_map (l : List SyncMapping) (m : SyncMapping) :
    (l.map (fun r => if r.shopify_id == m.shopify_id then applyConflictUpdate m r else r)).find?
        (fun r => r.shopify_id == m.shopify_id) =
      (l.find? (fun r => r.shopify_id == m.shopify_id)).map (applyConflictUpdate m) := by
  induction l with
  | nil => rfl
  | cons a t ih =>
    by_cases h : a.shopify_id == m.shopify_id
    · simp [List.find?, h, applyConflictUpdate_shopify_id]
    · simp only [List.map_cons]
      rw [if_neg (by simpa using h)]
      simp only [List.find?]
      rw [show (a.shopify_id == m.shopify_id) = false by simpa using h]
      exact ih

/-- After an upsert, looking up the upserted key yields the conflict-updated
old row when one existed, and the inserted row otherwise. -/
theorem get_mapping_upsert (db : Database) (m : SyncMapping) :
    get_mapping (upsert_mapping db m) m.shopify_id =
      some (match get_mapping db m.shopify_id with
            | some r => applyConflictUpdate m r
            | none => m) := by
  unfold upsert_mapping get_mapping
  by_cases hany : db.mappings.any (fun r => r.shopify_id == m.shopify_id)
  · rw [if_pos hany]
    simp only
    rw [find?_upsert_map]
    obtain ⟨x, hx, hpx⟩ := List.any_eq_true.mp hany
    cases hf : db.mappings.find? (fun r => r.shopify_id == m.shopify_id) with
    | none =>
      exact absurd hpx ((List.find?_eq_none.mp hf) x hx)
    | some r => rfl
  · rw [if_neg hany]
    simp only
    have hnone : db.mappings.find? (fun r => r.shopify_id == m.shopify_id) = none := by
      rw [List.find?_eq_none]
      intro x hx hpx
      exact hany (List.any_eq_true.mpr ⟨x, hx, hpx⟩)
    rw [List.find?_append, hnone]
    simp [List.find?]

theorem mem_upsert_of_ne (db : Database) (m : SyncMapping) {r : SyncMapping}
    (hr : r ∈ db.mappings) (hne : r.shopify_id ≠ m.shopify_id) :
    r ∈ (upsert_mapping db m).mappings := by
  unfold upsert_mapping
  by_cases hany : db.mappings.any (fun x => x.shopify_id == m.shopify_id)
  · rw [if_pos hany]
    simp only
    have : (if r.shopify_id == m.shopify_id then applyConflictUpdate m r else r) = r := by
      rw [if_neg (by simpa using hne)]
    exact this ▸ List.mem_map_of_mem _ hr
  · rw [if_neg hany]
    simp only
    exact List.mem_append_left _ hr

theorem upsert_history (db : Database) (m : SyncMapping) :
    (upsert_mapping db m).history = db.history := by
  unfold upsert_mapping; split <;> rfl

theorem upsert_errors (db : Database) (m : SyncMapping) :
    (upsert_mapping db m).errors = db.errors := by
  unfold upsert_mapping; split <;> rfl

theorem clear_error_mappings (db : Database) (sid : String) :
    (clear_error db sid).mappings = db.mappings := rfl

theorem clear_error_history (db : Database) (sid : String) :
    (clear_error db sid).history = db.history := rfl

theorem get_mapping_clear_error (db : Database) (sid sid' : String) :
    get_mapping (clear_error db sid) sid' = get_mapping db sid' := rfl

theorem record_error_mappings (db : Database) (et sid msg : String) (now : Nat) :
    (record_error db et sid msg now).mappings = db.mappings := by
  unfold record_error; split <;> rfl

theorem record_error_history (db : Database) (et sid msg : String) (now : Nat) :
    (record_error db et sid msg now).history = db.history := by
  unfold record_error; split <;> rfl

/-- C2 helper: the changed-order branch taken by `sync_single_order`. -/
theorem sync_single_order_changed (eng : SyncEngine) (db : Database)
    (order : ShopifyOrder) (now : Nat) (m : SyncMapping)
    (hm : get_mapping db (pyStrInt order.id) = some m)
    (hch : m.checksum ≠ some (calculate_order_checksum order)) :
    sync_single_order eng db order now =
      { action := "skipped", error := none,
        db := upsert_mapping db
          { m with checksum := some (calculate_order_checksum order),
                   last_synced_at := some now },
        calls := [] } := by
  simp only [sync_single_order]
  rw [hm]
  have hc : has_changed m.checksum (calculate_order_checksum order) = true := by
    unfold has_changed
    cases hck : m.checksum with
    | none => rfl
    | some old =>
      simp only
      rw [hck] at hch
      have : old ≠ calculate_order_checksum order := by
        intro he; exact hch (by rw [he])
      simpa using this
  simp [hc]

/-- C2: for every order that already has a mapping whose stored fingerprint
differs from the newly computed one, the pass returns `skipped` with no
error, issues zero remote calls (in particular zero update calls to the
destination), leaves the error store, run history and all other mapping rows
untouched, and rewrites the stored row changing only its fingerprint and
last-synced timestamp. -/
theorem order_changed_updates_only_fingerprint (eng : SyncEngine) (db : Database)
    (order : ShopifyOrder) (now : Nat) (m : SyncMapping)
    (hm : get_mapping db (pyStrInt order.id) = some m)
    (hch : m.checksum ≠ some (calculate_order_checksum order)) :
    (sync_single_order eng db order now).action = "skipped" ∧
    (sync_single_order eng db order now).error = none ∧
    (sync_single_order eng db order now).calls = [] ∧
    (sync_single_order eng db order now).db.errors = db.errors ∧
    (sync_single_order eng db order now).db.history = db.history ∧
    get_mapping (sync_single_order eng db order now).db (pyStrInt order.id) =
      some { m with checksum := some (calculate_order_checksum order),
                    last_synced_at := some now } ∧
    (∀ r ∈ db.mappings, r.shopify_id ≠ pyStrInt order.id →
      r ∈ (sync_single_order eng db order now).db.mappings) := by
  have hsid := (get_mapping_some_elim hm).2
  rw [sync_single_order_changed eng db order now m hm hch]
  refine ⟨rfl, rfl, rfl, upsert_errors _ _, upsert_history _ _, ?_, ?_⟩
  · rw [← hsid]
    rw [get_mapping_upsert db
      { m with checksum := some (calculate_order_checksum order),
               last_synced_at := some now }]
    rw [hsid, hm]
    simp [applyConflictUpdate, hsid]
  · intro r hr hne
    exact mem_upsert_of_ne db _ hr (by simpa [hsid] using hne)

/-- Witness for C2 at `ordA` over `dbStaleOrder`: the hypotheses hold and the
pass reports `skipped` with zero remote calls. -/
theorem order_changed_updates_only_fingerprint_witness :
    (get_mapping dbStaleOrder (pyStrInt ordA.id) = some mStaleOrder ∧
      mStaleOrder.checksum ≠ some (calculate_order_checksum ordA)) ∧
    ((sync_single_order engPlain dbStaleOrder ordA 5).action = "skipped" ∧
      (sync_single_order engPlain dbStaleOrder ordA 5).error = none ∧
      (sync_single_order engPlain dbStaleOrder ordA 5).calls = [] ∧
      (sync_single_order engPlain dbStaleOrder ordA 5).db.errors = dbStaleOrder.errors ∧
      (sync_single_order engPlain dbStaleOrder ordA 5).db.history = dbStaleOrder.history ∧
      get_mapping (sync_single_order engPlain dbStaleOrder ordA 5).db (pyStrInt ordA.id) =
        some { mStaleOrder with checksum := some (calculate_order_checksum ordA),
                                last_synced_at := some 5 } ∧
      (∀ r ∈ dbStaleOrder.mappings, r.shopify_id ≠ pyStrInt ordA.id →
        r ∈ (sync_single_order engPlain dbStaleOrder ordA 5).db.mappings)) :=
  ⟨⟨by decide, by decide⟩,
   order_changed_updates_only_fingerprint engPlain dbStaleOrder ordA 5 mStaleOrder
     (by decide) (by decide)⟩

/-! ## Error store lemmas -/

theorem foldl_pickLatest_some (l : List ErrorRow) :
    ∀ b : ErrorRow, ∃ x, l.foldl
      (fun acc r =>
        match acc with
        | none => some r
        | some b' => if b'.occurred_at < r.occurred_at then some r else some b')
      (some b) = some x := by
  induction l with
  | nil => intro b; exact ⟨b, rfl⟩
  | cons a t ih =>
    intro b
    simp only [List.foldl_cons]
    by_cases h : b.occurred_at < a.occurred_at
    · simpa [h] using ih a
    · simpa [h] using ih b

theorem selectExistingError_eq_none_iff (rows : List ErrorRow) (et sid : String) :
    selectExistingError rows et sid = none ↔
      ∀ r ∈ rows, ¬(r.entity_type = et ∧ r.shopify_id = sid) := by
  unfold selectExistingError
  constructor
  · intro h r hr hmatch
    have hmem : r ∈ rows.filter (fun r => r.entity_type == et && r.shopify_id == sid) :=
      List.mem_filter.mpr ⟨hr, by simp [hmatch.1, hmatch.2]⟩
    cases hf : rows.filter (fun r => r.entity_type == et && r.shopify_id == sid) with
    | nil => rw [hf] at hmem; simp at hmem
    | cons a t =>
      rw [hf] at h
      simp only [List.foldl_cons] at h
      obtain ⟨x, hx⟩ := foldl_pickLatest_some t a
      rw [hx] at h
      exact Option.noConfusion h
  · intro h
    have hf : rows.filter (fun r => r.entity_type == et && r.shopify_id == sid) = [] := by
      rw [List.filter_eq_nil_iff]
      intro a ha
      have := h a ha
      simp only [Bool.and_eq_true, beq_iff_eq]
      intro hcon
      exact this ⟨hcon.1, hcon.2⟩
    rw [hf]
    rfl

theorem filter_eq_singleton_of_unique {rows : List ErrorRow} {et sid : String}
    {ex : ErrorRow} (hwf : ErrorsAtMostOncePerKey rows) (hex : ex ∈ rows)
    (het : ex.entity_type = et) (hsid : ex.shopify_id = sid) :
    rows.filter (fun r => r.entity_type == et && r.shopify_id == sid) = [ex] := by
  induction rows with
  | nil => simp at hex
  | cons a t ih =>
    have hwf_t : ErrorsAtMostOncePerKey t := (List.pairwise_cons.mp hwf).2
    have hhead := (List.pairwise_cons.mp hwf).1
    rcases List.mem_cons.mp hex with ha | hmem
    · subst ha
      have ht : t.filter (fun r => r.entity_type == et && r.shopify_id == sid) = [] := by
        rw [List.filter_eq_nil_iff]
        intro b hb
        have := hhead b hb
        simp only [Bool.and_eq_true, beq_iff_eq]
        intro hcon
        exact this ⟨het.trans hcon.1.symm, hsid.trans hcon.2.symm⟩
      simp [List.filter_cons, het, hsid, ht]
    · have hamiss : ¬(a.entity_type = et ∧ a.shopify_id = sid) := by
        have := hhead ex hmem
        intro hcon
        exact this ⟨hcon.1.trans het.symm, hcon.2.trans hsid.symm⟩
      have hstep := ih hwf_t hmem
      rw [List.filter_cons]
      by_cases h1 : a.entity_type = et
      · have h2 : ¬(a.shopify_id = sid) := fun h2 => hamiss ⟨h1, h2⟩
        simp [h1, h2, hstep]
      · simp [h1, hstep]

theorem selectExistingError_of_unique {rows : List ErrorRow} {et sid : String}
    {ex : ErrorRow} (hwf : ErrorsAtMostOncePerKey rows) (hex : ex ∈ rows)
    (het : ex.entity_type = et) (hsid : ex.shopify_id = sid) :
    selectExistingError rows et sid = some ex := by
  unfold selectExistingError
  rw [filter_eq_singleton_of_unique hwf hex het hsid]
  rfl

theorem record_error_update_fun_fields (ex0 : ErrorRow) (msg : String) (now : Nat)
    (r : ErrorRow) :
    ((if r.id == ex0.id then
        { r with error_message := msg, occurred_at := now,
                 retry_count := r.retry_count + 1 }
      else r).entity_type = r.entity_type ∧
     (if r.id == ex0.id then
        { r with error_message := msg, occurred_at := now,
                 retry_count := r.retry_count + 1 }
      else r).shopify_id = r.shopify_id ∧
     (if r.id == ex0.id then
        { r with error_message := msg, occurred_at := now,
                 retry_count := r.retry_count + 1 }
      else r).id = r.id) := by
  by_cases h : r.id == ex0.id <;> simp [h]

theorem record_error_preserves_wf (db : Database) (et sid msg : String) (now : Nat)
    (hwf : ErrorsWellFormed db) : ErrorsWellFormed (record_error db et sid msg now) := by
  obtain ⟨hkeys, hids, hbound⟩ := hwf
  unfold record_error
  cases hsel : selectExistingError db.errors et sid with
  | some ex0 =>
    simp only
    refine ⟨?_, ?_, ?_⟩
    · unfold ErrorsAtMostOncePerKey
      rw [List.pairwise_map]
      refine hkeys.imp ?_
      intro a b hab
      have ha := record_error_update_fun_fields ex0 msg now a
      have hb := record_error_update_fun_fields ex0 msg now b
      rw [ha.1, ha.2.1, hb.1, hb.2.1]
      exact hab
    · rw [List.pairwise_map]
      refine hids.imp ?_
      intro a b hab
      have ha := record_error_update_fun_fields ex0 msg now a
      have hb := record_error_update_fun_fields ex0 msg now b
      rw [ha.2.2, hb.2.2]
      exact hab
    · intro r hr
      obtain ⟨r0, hr0, hr0eq⟩ := List.mem_map.mp hr
      have := (record_error_update_fun_fields ex0 msg now r0).2.2
      rw [hr0eq] at this
      rw [this]
      exact hbound r0 hr0
  | none =>
    simp only
    have hnomatch := (selectExistingError_eq_none_iff db.errors et sid).mp hsel
    refine ⟨?_, ?_, ?_⟩
    · unfold ErrorsAtMostOncePerKey
      rw [List.pairwise_append]
      refine ⟨hkeys, by simp, ?_⟩
      intro a ha b hb
      rw [List.mem_singleton.mp hb]
      intro hcon
      exact hnomatch a ha ⟨hcon.1, hcon.2⟩
    · rw [List.pairwise_append]
      refine ⟨hids, by simp, ?_⟩
      intro a ha b hb
      rw [List.mem_singleton.mp hb]
      have := hbound a ha
      show a.id ≠ db.next_error_id
      omega
    · intro r hr
      show r.id < db.next_error_id + 1
      rcases List.mem_append.mp hr with h | h
      · have := hbound r h
        omega
      · rw [List.mem_singleton.mp h]
        show db.next_error_id < db.next_error_id + 1
        omega

/-- C7: the error store keeps at most one active row per
`(entityType, sourceId)` under any sequence of `record_error` calls: a fresh
pair inserts exactly one row with `retry_count = 0`, while an existing pair
has its row's `retry_count` incremented and its message and timestamp
replaced, with no new row inserted and all other rows untouched. -/
theorem error_store_one_row_per_key :
    (∀ db et sid msg now, ErrorsWellFormed db →
        ErrorsWellFormed (record_error db et sid msg now)) ∧
    (∀ db et sid msg now,
        (∀ r ∈ db.errors, ¬(r.entity_type = et ∧ r.shopify_id = sid)) →
        (record_error db et sid msg now).errors =
          db.errors ++ [{ id := db.next_error_id, entity_type := et, shopify_id := sid,
                          error_message := msg, occurred_at := now, retry_count := 0 }]) ∧
    (∀ db et sid msg now ex, ErrorsWellFormed db → ex ∈ db.errors →
        ex.entity_type = et → ex.shopify_id = sid →
        (record_error db et sid msg now).errors.length = db.errors.length ∧
        { ex with error_message := msg, occurred_at := now,
                  retry_count := ex.retry_count + 1 } ∈ (record_error db et sid msg now).errors ∧
        ∀ r ∈ db.errors, r.id ≠ ex.id → r ∈ (record_error db et sid msg now).errors) ∧
    (∀ db ops, ErrorsWellFormed db →
        ErrorsAtMostOncePerKey (applyRecordErrors db ops).errors) := by
  have hseq : ∀ ops db, ErrorsWellFormed db → ErrorsWellFormed (applyRecordErrors db ops) := by
    intro ops
    induction ops with
    | nil => intro db h; exact h
    | cons op rest ih =>
      intro db h
      exact ih _ (record_error_preserves_wf db op.1 op.2.1 op.2.2.1 op.2.2.2 h)
  refine ⟨record_error_preserves_wf, ?_, ?_, fun db ops h => (hseq ops db h).1⟩
  · intro db et sid msg now hfresh
    unfold record_error
    rw [(selectExistingError_eq_none_iff db.errors et sid).mpr hfresh]
  · intro db et sid msg now ex hwf hex het hsid
    have hsel := selectExistingError_of_unique hwf.1 hex het hsid
    unfold record_error
    rw [hsel]
    simp only
    refine ⟨List.length_map _ _, ?_, ?_⟩
    · have himg := List.mem_map_of_mem
        (fun r => if r.id == ex.id then
          ({ r with error_message := msg, occurred_at := now,
                    retry_count := r.retry_count + 1 } : ErrorRow)
        else r) hex
      simpa using himg
    · intro r hr hne
      refine List.mem_map.mpr ⟨r, hr, ?_⟩
      rw [if_neg (by simpa using hne)]

/-- Witness for C7: over `dbOneError` (one customer error for id 7,
`retry_count = 2`), recording for the fresh pair `(order, 8)` appends one
zero-count row, and re-recording for `(customer, 7)` yields the bumped row
with `retry_count = 3` and the new message. -/
theorem error_store_one_row_per_key_witness :
    (∀ r ∈ dbOneError.errors, ¬(r.entity_type = "order" ∧ r.shopify_id = "8")) ∧
    (record_error dbOneError "order" "8" "new" 9).errors =
      dbOneError.errors ++
        [{ id := 1, entity_type := "order", shopify_id := "8",
           error_message := "new", occurred_at := 9, retry_count := 0 }] ∧
    ({ id := 0, entity_type := "customer", shopify_id := "7", error_message := "again",
       occurred_at := 9, retry_count := 3 } : ErrorRow) ∈
      (record_error dbOneError "customer" "7" "again" 9).errors := by
  have hwf : ErrorsWellFormed dbOneError := by
    refine ⟨?_, ?_, ?_⟩
    · simp [ErrorsAtMostOncePerKey, dbOneError]
    · simp [dbOneError]
    · intro r hr
      have : r = { id := 0, entity_type := "customer", shopify_id := "7",
                   error_message := "x", occurred_at := 1, retry_count := 2 } := by
        simpa [dbOneError] using hr
      rw [this]
      decide
  refine ⟨by decide, ?_, ?_⟩
  · exact error_store_one_row_per_key.2.1 dbOneError "order" "8" "new" 9 (by decide)
  · exact (error_store_one_row_per_key.2.2.1 dbOneError "customer" "7" "again" 9
      { id := 0, entity_type := "customer", shopify_id := "7",
        error_message := "x", occurred_at := 1, retry_count := 2 }
      hwf (by decide) rfl rfl).2.1

/-! ## Customer pass branch lemmas -/

theorem strTruthy_orEmpty_ne {o : Option String} (h : strTruthy o = true) :
    (orEmpty o == "") = false := by
  cases o with
  | none => simp [strTruthy] at h
  | some s =>
    simp only [strTruthy] at h
    simpa [orEmpty] using h

/-- The marketing-consent call trace of `_sync_single_customer`. -/
theorem marketing_calls_nil {eng : SyncEngine}
    (h : eng.settings.enable_email_marketing = false) (c : ShopifyCustomer) :
    (if eng.settings.enable_email_marketing && !eng.dry_run then
      [RemoteCall.shopifyUpdateEmailMarketing c.id] else []) = ([] : List RemoteCall) := by
  rw [h]
  simp

theorem sync_single_customer_mapped (eng : SyncEngine) (db : Database)
    (c : ShopifyCustomer) (now : Nat) (m : SyncMapping)
    (hm : get_mapping db (pyStrInt c.id) = some m) :
    sync_single_customer eng db c now =
      (if !(has_changed m.checksum (calculate_customer_checksum c)) then
        { action := "skipped", error := none, db := db,
          calls := if eng.settings.enable_email_marketing && !eng.dry_run then
            [RemoteCall.shopifyUpdateEmailMarketing c.id] else [] }
      else
        update_customer_in_xero eng db c m (calculate_customer_checksum c) now
          (if eng.settings.enable_email_marketing && !eng.dry_run then
            [RemoteCall.shopifyUpdateEmailMarketing c.id] else [])) := by
  simp only [sync_single_customer]
  rw [hm]

theorem sync_single_customer_new (eng : SyncEngine) (db : Database)
    (c : ShopifyCustomer) (now : Nat)
    (hm : get_mapping db (pyStrInt c.id) = none) :
    sync_single_customer eng db c now =
      create_customer_in_xero eng db c (calculate_customer_checksum c) now
        (if eng.settings.enable_email_marketing && !eng.dry_run then
          [RemoteCall.shopifyUpdateEmailMarketing c.id] else []) := by
  simp only [sync_single_customer]
  rw [hm]

theorem create_customer_skip_lookup (eng : SyncEngine) (db : Database)
    (c : ShopifyCustomer) (checksum : String) (now : Nat) (calls0 : List RemoteCall)
    (h : strTruthy c.email = false) :
    create_customer_in_xero eng db c checksum now calls0 =
      create_customer_no_match eng db c checksum now calls0 := by
  simp only [create_customer_in_xero, h]
  simp

theorem create_customer_lookup_none (eng : SyncEngine) (db : Database)
    (c : ShopifyCustomer) (checksum : String) (now : Nat) (calls0 : List RemoteCall)
    (h : strTruthy c.email = true)
    (hf : eng.xero.find_contact_by_email (orEmpty c.email) = RemoteResult.ok none) :
    create_customer_in_xero eng db c checksum now calls0 =
      create_customer_no_match eng db c checksum now
        (calls0 ++ [RemoteCall.xeroFindContactByEmail (orEmpty c.email)]) := by
  simp only [create_customer_in_xero, h, xero_find_contact_by_email,
    strTruthy_orEmpty_ne h, hf]
  simp

theorem create_customer_lookup_err (eng : SyncEngine) (db : Database)
    (c : ShopifyCustomer) (checksum : String) (now : Nat) (calls0 : List RemoteCall)
    (h : strTruthy c.email = true) (e : String)
    (hf : eng.xero.find_contact_by_email (orEmpty c.email) = RemoteResult.err e) :
    create_customer_in_xero eng db c checksum now calls0 =
      create_customer_no_match eng db c checksum now
        (calls0 ++ [RemoteCall.xeroFindContactByEmail (orEmpty c.email)]) := by
  simp only [create_customer_in_xero, h, xero_find_contact_by_email,
    strTruthy_orEmpty_ne h, hf]
  simp

theorem create_customer_lookup_archived (eng : SyncEngine) (db : Database)
    (c : ShopifyCustomer) (checksum : String) (now : Nat) (calls0 : List RemoteCall)
    (h : strTruthy c.email = true) (ec : XeroContact)
    (hf : eng.xero.find_contact_by_email (orEmpty c.email) = RemoteResult.ok (some ec))
    (harch : ec.ContactStatus = "ARCHIVED") :
    create_customer_in_xero eng db c checksum now calls0 =
      create_customer_no_match eng db c checksum now
        (calls0 ++ [RemoteCall.xeroFindContactByEmail (orEmpty c.email)]) := by
  have hcond : (ec.ContactStatus == "ARCHIVED") = true := by simp [harch]
  simp only [create_customer_in_xero, h, xero_find_contact_by_email,
    strTruthy_orEmpty_ne h, hf]
  simp [hcond]

theorem create_customer_link_dry (eng : SyncEngine) (db : Database)
    (c : ShopifyCustomer) (checksum : String) (now : Nat) (calls0 : List RemoteCall)
    (h : strTruthy c.email = true) (ec : XeroContact)
    (hf : eng.xero.find_contact_by_email (orEmpty c.email) = RemoteResult.ok (some ec))
    (harch : (ec.ContactStatus == "ARCHIVED") = false) (hdry : eng.dry_run = true) :
    create_customer_in_xero eng db c checksum now calls0 =
      { action := "updated", error := none,
        db := clear_error (upsert_mapping db
          { shopify_id := pyStrInt c.id, xero_id := orEmpty ec.ContactID,
            entity_type := "customer", last_synced_at := some now,
            shopify_updated_at := c.updated_at, checksum := some checksum })
          (pyStrInt c.id),
        calls := calls0 ++ [RemoteCall.xeroFindContactByEmail (orEmpty c.email)] } := by
  simp only [create_customer_in_xero, h, xero_find_contact_by_email,
    strTruthy_orEmpty_ne h, hf]
  simp [harch, hdry]

theorem create_customer_link_ok (eng : SyncEngine) (db : Database)
    (c : ShopifyCustomer) (checksum : String) (now : Nat) (calls0 : List RemoteCall)
    (h : strTruthy c.email = true) (ec : XeroContact)
    (hf : eng.xero.find_contact_by_email (orEmpty c.email) = RemoteResult.ok (some ec))
    (harch : (ec.ContactStatus == "ARCHIVED") = false) (hdry : eng.dry_run = false)
    (u : XeroContact)
    (hu : eng.xero.update_contact
      { shopify_customer_to_xero_contact c with ContactID := ec.ContactID } =
      RemoteResult.ok u) :
    create_customer_in_xero eng db c checksum now calls0 =
      { action := "updated", error := none,
        db := clear_error (upsert_mapping db
          { shopify_id := pyStrInt c.id, xero_id := orEmpty ec.ContactID,
            entity_type := "customer", last_synced_at := some now,
            shopify_updated_at := c.updated_at, checksum := some checksum })
          (pyStrInt c.id),
        calls := calls0 ++ [RemoteCall.xeroFindContactByEmail (orEmpty c.email),
          RemoteCall.xeroUpdateContact ec.ContactID] } := by
  simp only [create_customer_in_xero, h, xero_find_contact_by_email,
    strTruthy_orEmpty_ne h, hf]
  simp [harch, hdry, hu]

theorem create_customer_link_err (eng : SyncEngine) (db : Database)
    (c : ShopifyCustomer) (checksum : String) (now : Nat) (calls0 : List RemoteCall)
    (h : strTruthy c.email = true) (ec : XeroContact)
    (hf : eng.xero.find_contact_by_email (orEmpty c.email) = RemoteResult.ok (some ec))
    (harch : (ec.ContactStatus == "ARCHIVED") = false) (hdry : eng.dry_run = false)
    (e : String)
    (hu : eng.xero.update_contact
      { shopify_customer_to_xero_contact c with ContactID := ec.ContactID } =
      RemoteResult.err e) :
    create_customer_in_xero eng db c checksum now calls0 =
      { action := "skipped",
        error := some ("Failed to update existing contact for customer " ++
          pyStrInt c.id ++ ": " ++ e),
        db := clear_error (upsert_mapping db
          { shopify_id := pyStrInt c.id, xero_id := orEmpty ec.ContactID,
            entity_type := "customer", last_synced_at := some now,
            shopify_updated_at := c.updated_at, checksum := some checksum })
          (pyStrInt c.id),
        calls := calls0 ++ [RemoteCall.xeroFindContactByEmail (orEmpty c.email),
          RemoteCall.xeroUpdateContact ec.ContactID] } := by
  simp only [create_customer_in_xero, h, xero_find_contact_by_email,
    strTruthy_orEmpty_ne h, hf]
  simp [harch, hdry, hu]

theorem create_customer_no_match_dry (eng : SyncEngine) (db : Database)
    (c : ShopifyCustomer) (checksum : String) (now : Nat) (calls : List RemoteCall)
    (hdry : eng.dry_run = true) :
    create_customer_no_match eng db c checksum now calls =
      { action := "created", error := none, db := db, calls := calls } := by
  simp only [create_customer_no_match, hdry]
  simp

theorem create_customer_no_match_ok (eng : SyncEngine) (db : Database)
    (c : ShopifyCustomer) (checksum : String) (now : Nat) (calls : List RemoteCall)
    (hdry : eng.dry_run = false) (created : XeroContact)
    (hc : eng.xero.create_contact (shopify_customer_to_xero_contact c) =
      RemoteResult.ok created) :
    create_customer_no_match eng db c checksum now calls =
      { action := "created", error := none,
        db := clear_error (upsert_mapping db
          { shopify_id := pyStrInt c.id, xero_id := orEmpty created.ContactID,
            entity_type := "customer", last_synced_at := some now,
            shopify_updated_at := c.updated_at, checksum := some checksum })
          (pyStrInt c.id),
        calls := calls ++ [RemoteCall.xeroCreateContact] } := by
  simp only [create_customer_no_match, hdry, hc]
  simp

theorem create_customer_no_match_err (eng : SyncEngine) (db : Database)
    (c : ShopifyCustomer) (checksum : String) (now : Nat) (calls : List RemoteCall)
    (hdry : eng.dry_run = false) (e : String)
    (hc : eng.xero.create_contact (shopify_customer_to_xero_contact c) =
      RemoteResult.err e) :
    create_customer_no_match eng db c checksum now calls =
      { action := "skipped",
        error := some ("Failed to create contact for customer " ++ pyStrInt c.id ++ ": " ++ e),
        db := db, calls := calls ++ [RemoteCall.xeroCreateContact] } := by
  simp only [create_customer_no_match, hdry, hc]
  simp

theorem update_customer_dry (eng : SyncEngine) (db : Database) (c : ShopifyCustomer)
    (m : SyncMapping) (new_checksum : String) (now : Nat) (calls0 : List RemoteCall)
    (hdry : eng.dry_run = true) :
    update_customer_in_xero eng db c m new_checksum now calls0 =
      { action := "updated", error := none, db := db, calls := calls0 } := by
  simp only [update_customer_in_xero, hdry]
  simp

theorem update_customer_ok (eng : SyncEngine) (db : Database) (c : ShopifyCustomer)
    (m : SyncMapping) (new_checksum : String) (now : Nat) (calls0 : List RemoteCall)
    (hdry : eng.dry_run = false) (u : XeroContact)
    (hu : eng.xero.update_contact
      { shopify_customer_to_xero_contact c with ContactID := some m.xero_id } =
      RemoteResult.ok u) :
    update_customer_in_xero eng db c m new_checksum now calls0 =
      { action := "updated", error := none,
        db := clear_error (upsert_mapping db
          { m with last_synced_at := some now, shopify_updated_at := c.updated_at,
                   checksum := some new_checksum }) (pyStrInt c.id),
        calls := calls0 ++ [RemoteCall.xeroUpdateContact (some m.xero_id)] } := by
  simp only [update_customer_in_xero, hdry, hu]
  simp

theorem update_customer_err (eng : SyncEngine) (db : Database) (c : ShopifyCustomer)
    (m : SyncMapping) (new_checksum : String) (now : Nat) (calls0 : List RemoteCall)
    (hdry : eng.dry_run = false) (e : String)
    (hu : eng.xero.update_contact
      { shopify_customer_to_xero_contact c with ContactID := some m.xero_id } =
      RemoteResult.err e) :
    update_customer_in_xero eng db c m new_checksum now calls0 =
      { action := "skipped",
        error := some ("Failed to update contact for customer " ++ pyStrInt c.id ++ ": " ++ e),
        db := db, calls := calls0 ++ [RemoteCall.xeroUpdateContact (some m.xero_id)] } := by
  simp only [update_customer_in_xero, hdry, hu]
  simp

/-! ## C10: error clearing is keyed by source id only -/

/-- C10: `clear_error` deletes error rows matched by `shopify_id` alone,
ignoring the entity type; consequently a successful customer create pass for
source id `s` removes every error row whose source id is `s`, of any entity
type, leaving exactly the rows with other source ids. -/
theorem clear_error_ignores_entity_type :
    (∀ (db : Database) (sid : String) (r : ErrorRow),
        r ∈ (clear_error db sid).errors ↔ (r ∈ db.errors ∧ r.shopify_id ≠ sid)) ∧
    (∀ (eng : SyncEngine) (db : Database) (c : ShopifyCustomer) (now : Nat)
        (created : XeroContact),
        eng.dry_run = false → strTruthy c.email = false →
        get_mapping db (pyStrInt c.id) = none →
        eng.xero.create_contact (shopify_customer_to_xero_contact c) =
          RemoteResult.ok created →
        (sync_single_customer eng db c now).action = "created" ∧
        (sync_single_customer eng db c now).db.errors =
          db.errors.filter (fun r => !(r.shopify_id == pyStrInt c.id))) := by
  constructor
  · intro db sid r
    unfold clear_error
    simp only [List.mem_filter]
    constructor
    · intro ⟨h1, h2⟩
      exact ⟨h1, by simpa using h2⟩
    · intro ⟨h1, h2⟩
      exact ⟨h1, by simpa using h2⟩
  · intro eng db c now created hdry hemail hm hcreate
    rw [sync_single_customer_new eng db c now hm,
        create_customer_skip_lookup eng db c _ now _ hemail,
        create_customer_no_match_ok eng db c _ now _ hdry created hcreate]
    exact ⟨rfl, by rw [show ∀ (x : Database) (s : String),
      (clear_error x s).errors = x.errors.filter (fun r => !(r.shopify_id == s))
      from fun _ _ => rfl, upsert_errors]⟩

/-- Witness for C10: syncing customer 1 (no email, no mapping) over a store
holding product and customer errors for id 1 and an order error for id 7
removes both id-1 rows — including the product one — and keeps the id-7 row. -/
theorem clear_error_ignores_entity_type_witness :
    (strTruthy custNoEmail.email = false ∧
      get_mapping dbMixedErrors (pyStrInt custNoEmail.id) = none) ∧
    ((sync_single_customer engPlain dbMixedErrors custNoEmail 0).action = "created" ∧
      (sync_single_customer engPlain dbMixedErrors custNoEmail 0).db.errors =
        [{ id := 2, entity_type := "order", shopify_id := "7",
           error_message := "o", occurred_at := 3, retry_count := 1 }]) := by
  refine ⟨⟨by decide, by decide⟩, ?_⟩
  have h := clear_error_ignores_entity_type.2 engPlain dbMixedErrors custNoEmail 0
    { shopify_customer_to_xero_contact custNoEmail with ContactID := some "new-c" }
    rfl (by decide) (by decide) (by decide)
  refine ⟨h.1, ?_⟩
  rw [h.2]
  decide

/-! ## C4: a failed create leaves the mapping store untouched -/

theorem foldl_pickLatest_mem (l : List ErrorRow) :
    ∀ (acc : Option ErrorRow) (x : ErrorRow),
      l.foldl
        (fun acc r =>
          match acc with
          | none => some r
          | some b' => if b'.occurred_at < r.occurred_at then some r else some b')
        acc = some x → x ∈ l ∨ acc = some x := by
  induction l with
  | nil => intro acc x h; exact Or.inr h
  | cons a t ih =>
    intro acc x h
    simp only [List.foldl_cons] at h
    rcases ih _ x h with hx | hacc
    · exact Or.inl (List.mem_cons_of_mem a hx)
    · cases acc with
      | none =>
        simp only at hacc
        exact Or.inl (by rw [← Option.some.inj hacc]; exact List.mem_cons_self a t)
      | some b =>
        simp only at hacc
        by_cases hcmp : b.occurred_at < a.occurred_at
        · rw [if_pos hcmp] at hacc
          exact Or.inl (by rw [← Option.some.inj hacc]; exact List.mem_cons_self a t)
        · rw [if_neg hcmp] at hacc
          exact Or.inr hacc

theorem selectExistingError_mem {rows : List ErrorRow} {et sid : String} {ex : ErrorRow}
    (h : selectExistingError rows et sid = some ex) :
    ex ∈ rows ∧ ex.entity_type = et ∧ ex.shopify_id = sid := by
  unfold selectExistingError at h
  rcases foldl_pickLatest_mem _ none ex h with hmem | habs
  · have := List.mem_filter.mp hmem
    refine ⟨this.1, ?_, ?_⟩
    · have h2 := this.2
      simp only [Bool.and_eq_true, beq_iff_eq] at h2
      exact h2.1
    · have h2 := this.2
      simp only [Bool.and_eq_true, beq_iff_eq] at h2
      exact h2.2
  · exact Option.noConfusion habs

/-- Whatever the prior state, `record_error` leaves a row carrying the given
key and message in the table. -/
theorem record_error_mem_result (db : Database) (et sid msg : String) (now : Nat) :
    ∃ r ∈ (record_error db et sid msg now).errors,
      r.entity_type = et ∧ r.shopify_id = sid ∧ r.error_message = msg := by
  unfold record_error
  cases hsel : selectExistingError db.errors et sid with
  | some ex =>
    obtain ⟨hex, het, hsid⟩ := selectExistingError_mem hsel
    refine ⟨{ ex with error_message := msg, occurred_at := now, retry_count := ex.retry_count + 1 }, ?_, het, hsid, rfl⟩
    simp only
    have := List.mem_map_of_mem
      (fun r => if r.id == ex.id then
        ({ r with error_message := msg, occurred_at := now,
                  retry_count := r.retry_count + 1 } : ErrorRow)
      else r) hex
    simpa using this
  | none =>
    refine ⟨{ id := db.next_error_id, entity_type := et, shopify_id := sid,
              error_message := msg, occurred_at := now, retry_count := 0 }, ?_, rfl, rfl, rfl⟩
    simp

/-- C4: for a new customer (no mapping) whose destination create call fails,
the pass reports the error and leaves the whole store untouched — no mapping
row is written — and the phase loop records the error in the error store
while the mapping table stays unchanged, so the next run retries a create. -/
theorem create_failure_writes_no_mapping (eng : SyncEngine) (db : Database)
    (c : ShopifyCustomer) (now : Nat) (e : String)
    (hdry : eng.dry_run = false)
    (hemail : strTruthy c.email = true)
    (hm : get_mapping db (pyStrInt c.id) = none)
    (hfind : eng.xero.find_contact_by_email (orEmpty c.email) = RemoteResult.ok none)
    (hcreate : eng.xero.create_contact (shopify_customer_to_xero_contact c) =
      RemoteResult.err e)
    (hfetch : ∀ t, eng.shopify.fetch_all_customers t = RemoteResult.ok [c]) :
    (sync_single_customer eng db c now).action = "skipped" ∧
    (sync_single_customer eng db c now).error =
      some ("Failed to create contact for customer " ++ pyStrInt c.id ++ ": " ++ e) ∧
    (sync_single_customer eng db c now).db = db ∧
    (sync_customers eng db false now).2.1.mappings = db.mappings ∧
    (sync_customers eng db false now).1.errors =
      ["Failed to create contact for customer " ++ pyStrInt c.id ++ ": " ++ e] ∧
    ∃ r ∈ (sync_customers eng db false now).2.1.errors,
      r.entity_type = "customer" ∧ r.shopify_id = pyStrInt c.id ∧
      r.error_message =
        "Failed to create contact for customer " ++ pyStrInt c.id ++ ": " ++ e := by
  have hout : sync_single_customer eng db c now =
      { action := "skipped",
        error := some ("Failed to create contact for customer " ++ pyStrInt c.id ++ ": " ++ e),
        db := db,
        calls := (if eng.settings.enable_email_marketing && !eng.dry_run then
            [RemoteCall.shopifyUpdateEmailMarketing c.id] else []) ++
          [RemoteCall.xeroFindContactByEmail (orEmpty c.email)] ++
          [RemoteCall.xeroCreateContact] } := by
    rw [sync_single_customer_new eng db c now hm,
        create_customer_lookup_none eng db c _ now _ hemail hfind,
        create_customer_no_match_err eng db c _ now _ hdry e hcreate]
  have hloop : sync_customers eng db false now =
      (({ success := true } : SyncResult).errors ++
          ["Failed to create contact for customer " ++ pyStrInt c.id ++ ": " ++ e] |>
        fun errs => ({ success := true, errors := errs } : SyncResult),
       record_error db "customer" (pyStrInt c.id)
         ("Failed to create contact for customer " ++ pyStrInt c.id ++ ": " ++ e) now,
       [RemoteCall.shopifyFetchCustomers] ++ (sync_single_customer eng db c now).calls) := by
    unfold sync_customers
    rw [hfetch (updatedAtMin db false)]
    simp only [List.foldl_cons, List.foldl_nil, customer_step]
    rw [hout]
  rw [hout] at hloop ⊢
  rw [hloop]
  exact ⟨rfl, rfl, rfl, record_error_mappings db "customer" (pyStrInt c.id) _ now, rfl,
    record_error_mem_result db "customer" (pyStrInt c.id) _ now⟩

/-- Witness for C4: customer 1 over an empty store with a failing create
call — the pass reports `skipped` with the failure, the store keeps no
mapping, and the loop records a customer error row. -/
theorem create_failure_writes_no_mapping_witness :
    (strTruthy custA.email = true ∧
      get_mapping ({} : Database) (pyStrInt custA.id) = none ∧
      engCreateFails.xero.create_contact (shopify_customer_to_xero_contact custA) =
        RemoteResult.err "boom") ∧
    ((sync_single_customer engCreateFails {} custA 0).action = "skipped" ∧
      (sync_single_customer engCreateFails {} custA 0).db = ({} : Database) ∧
      (sync_customers engCreateFails {} false 0).2.1.mappings = ([] : List SyncMapping) ∧
      ∃ r ∈ (sync_customers engCreateFails {} false 0).2.1.errors,
        r.entity_type = "customer" ∧ r.shopify_id = pyStrInt custA.id ∧
        r.error_message =
          "Failed to create contact for customer " ++ pyStrInt custA.id ++ ": " ++ "boom") := by
  have h := create_failure_writes_no_mapping engCreateFails {} custA 0 "boom" rfl
    (by decide) (by decide) (by decide) (by decide) (fun t => rfl)
  exact ⟨⟨by decide, by decide, by decide⟩,
    h.1, h.2.2.1, h.2.2.2.1, h.2.2.2.2.2⟩

/-! ## C1: fingerprint fast path and idempotence -/

theorem sync_single_order_fast (eng : SyncEngine) (db : Database) (order : ShopifyOrder)
    (now : Nat) (m : SyncMapping)
    (hm : get_mapping db (pyStrInt order.id) = some m)
    (hck : m.checksum = some (calculate_order_checksum order)) :
    sync_single_order eng db order now =
      { action := "skipped", error := none, db := db, calls := [] } := by
  simp only [sync_single_order]
  rw [hm]
  simp [has_changed, hck]

theorem sync_single_product_fast (eng : SyncEngine) (db : Database)
    (p : ShopifyProduct) (now : Nat) (m : SyncMapping)
    (hm : get_mapping db (pyStrInt p.id) = some m)
    (hck : m.checksum = some (calculate_product_checksum p)) :
    sync_single_product eng db p now =
      { action := "skipped", error := none, db := db, calls := [] } := by
  simp only [sync_single_product]
  cases hxi : shopify_product_to_xero_item p with
  | none => rfl
  | some xi =>
    rw [hm]
    simp [has_changed, hck]

theorem sync_single_customer_fast (eng : SyncEngine) (db : Database)
    (c : ShopifyCustomer) (now : Nat) (m : SyncMapping)
    (hmail : eng.settings.enable_email_marketing = false)
    (hm : get_mapping db (pyStrInt c.id) = some m)
    (hck : m.checksum = some (calculate_customer_checksum c)) :
    sync_single_customer eng db c now =
      { action := "skipped", error := none, db := db, calls := [] } := by
  rw [sync_single_customer_mapped eng db c now m hm]
  rw [marketing_calls_nil hmail]
  simp [has_changed, hck]

theorem get_mapping_upsert_checksum (db : Database) (m' : SyncMapping) :
    ∃ r, get_mapping (upsert_mapping db m') m'.shopify_id = some r ∧
      r.checksum = m'.checksum := by
  rw [get_mapping_upsert]
  refine ⟨_, rfl, ?_⟩
  cases h : get_mapping db m'.shopify_id with
  | none => rfl
  | some r => rfl

theorem create_customer_no_match_stores (eng : SyncEngine) (db : Database)
    (c : ShopifyCustomer) (checksum : String) (now : Nat) (calls : List RemoteCall)
    (hdry : eng.dry_run = false)
    (hact : (create_customer_no_match eng db c checksum now calls).action = "created" ∨
      (create_customer_no_match eng db c checksum now calls).action = "updated") :
    ∃ m, get_mapping (create_customer_no_match eng db c checksum now calls).db
        (pyStrInt c.id) = some m ∧ m.checksum = some checksum := by
  cases hc : eng.xero.create_contact (shopify_customer_to_xero_contact c) with
  | ok created =>
    rw [create_customer_no_match_ok eng db c checksum now calls hdry created hc]
    rw [show ∀ (x : Database) (s s' : String),
      get_mapping (clear_error x s) s' = get_mapping x s' from fun _ _ _ => rfl]
    exact get_mapping_upsert_checksum db _
  | err e =>
    rw [create_customer_no_match_err eng db c checksum now calls hdry e hc] at hact
    rcases hact with h | h <;> simp at h

/-- After a non-dry customer pass that reports `created` or `updated`, the
store holds a mapping for the customer whose fingerprint is the customer's
current checksum. -/
theorem customer_success_stores_fingerprint (eng : SyncEngine) (db : Database)
    (c : ShopifyCustomer) (now : Nat) (hdry : eng.dry_run = false)
    (hact : (sync_single_customer eng db c now).action = "created" ∨
      (sync_single_customer eng db c now).action = "updated") :
    ∃ m, get_mapping (sync_single_customer eng db c now).db (pyStrInt c.id) = some m ∧
      m.checksum = some (calculate_customer_checksum c) := by
  cases hm : get_mapping db (pyStrInt c.id) with
  | some m =>
    have hsid := (get_mapping_some_elim hm).2
    rw [sync_single_customer_mapped eng db c now m hm] at hact ⊢
    by_cases hch : (!(has_changed m.checksum (calculate_customer_checksum c))) = true
    · rw [if_pos hch] at hact
      rcases hact with h | h <;> simp at h
    · rw [if_neg hch] at hact ⊢
      cases hu : eng.xero.update_contact
          { shopify_customer_to_xero_contact c with ContactID := some m.xero_id } with
      | ok u =>
        rw [update_customer_ok eng db c m _ now _ hdry u hu]
        rw [show ∀ (x : Database) (s s' : String),
          get_mapping (clear_error x s) s' = get_mapping x s' from fun _ _ _ => rfl]
        rw [← hsid]
        exact get_mapping_upsert_checksum db _
      | err e =>
        rw [update_customer_err eng db c m _ now _ hdry e hu] at hact
        rcases hact with h | h <;> simp at h
  | none =>
    rw [sync_single_customer_new eng db c now hm] at hact ⊢
    cases hemail : strTruthy c.email with
    | false =>
      rw [create_customer_skip_lookup eng db c _ now _ hemail] at hact ⊢
      exact create_customer_no_match_stores eng db c _ now _ hdry hact
    | true =>
      cases hf : eng.xero.find_contact_by_email (orEmpty c.email) with
      | err e =>
        rw [create_customer_lookup_err eng db c _ now _ hemail e hf] at hact ⊢
        exact create_customer_no_match_stores eng db c _ now _ hdry hact
      | ok r =>
        cases r with
        | none =>
          rw [create_customer_lookup_none eng db c _ now _ hemail hf] at hact ⊢
          exact create_customer_no_match_stores eng db c _ now _ hdry hact
        | some ec =>
          cases harch : (ec.ContactStatus == "ARCHIVED") with
          | true =>
            rw [create_customer_lookup_archived eng db c _ now _ hemail ec hf
              (by simpa using harch)] at hact ⊢
            exact create_customer_no_match_stores eng db c _ now _ hdry hact
          | false =>
            cases hu : eng.xero.update_contact
                { shopify_customer_to_xero_contact c with ContactID := ec.ContactID } with
            | ok u =>
              rw [create_customer_link_ok eng db c _ now _ hemail ec hf harch hdry u hu]
              rw [show ∀ (x : Database) (s s' : String),
                get_mapping (clear_error x s) s' = get_mapping x s' from fun _ _ _ => rfl]
              exact get_mapping_upsert_checksum db _
            | err e =>
              rw [create_customer_link_err eng db c _ now _ hemail ec hf harch hdry e hu]
                at hact
              rcases hact with h | h <;> simp at h

/-- C1: an entity whose stored mapping fingerprint equals its freshly
computed fingerprint is `skipped` with no remote call and no store write —
for customers (marketing feature off), products and orders alike; and after
any non-dry customer pass reporting `created`/`updated`, an immediate second
pass over the unchanged customer is `skipped` with zero remote calls and no
store write. -/
theorem fingerprint_match_skips_and_second_run_skips :
    (∀ (eng : SyncEngine) (db : Database) (c : ShopifyCustomer) (now : Nat)
        (m : SyncMapping), eng.settings.enable_email_marketing = false →
        get_mapping db (pyStrInt c.id) = some m →
        m.checksum = some (calculate_customer_checksum c) →
        sync_single_customer eng db c now =
          { action := "skipped", error := none, db := db, calls := [] }) ∧
    (∀ (eng : SyncEngine) (db : Database) (p : ShopifyProduct) (now : Nat)
        (m : SyncMapping),
        get_mapping db (pyStrInt p.id) = some m →
        m.checksum = some (calculate_product_checksum p) →
        sync_single_product eng db p now =
          { action := "skipped", error := none, db := db, calls := [] }) ∧
    (∀ (eng : SyncEngine) (db : Database) (o : ShopifyOrder) (now : Nat)
        (m : SyncMapping),
        get_mapping db (pyStrInt o.id) = some m →
        m.checksum = some (calculate_order_checksum o) →
        sync_single_order eng db o now =
          { action := "skipped", error := none, db := db, calls := [] }) ∧
    (∀ (eng : SyncEngine) (db : Database) (c : ShopifyCustomer) (now now2 : Nat),
        eng.dry_run = false → eng.settings.enable_email_marketing = false →
        ((sync_single_customer eng db c now).action = "created" ∨
          (sync_single_customer eng db c now).action = "updated") →
        sync_single_customer eng (sync_single_customer eng db c now).db c now2 =
          { action := "skipped", error := none,
            db := (sync_single_customer eng db c now).db, calls := [] }) := by
  refine ⟨fun eng db c now m hmail hm hck =>
      sync_single_customer_fast eng db c now m hmail hm hck,
    fun eng db p now m hm hck => sync_single_product_fast eng db p now m hm hck,
    fun eng db o now m hm hck => sync_single_order_fast eng db o now m hm hck,
    ?_⟩
  intro eng db c now now2 hdry hmail hact
  obtain ⟨m, hm, hck⟩ := customer_success_stores_fingerprint eng db c now hdry hact
  exact sync_single_customer_fast eng _ c now2 m hmail hm hck

/-- Witness for C1: the fast path at `custA` over `dbFreshCust`, and the
create-then-skip pair over the empty store with the live engine. -/
theorem fingerprint_match_skips_and_second_run_skips_witness :
    (engPlain.settings.enable_email_marketing = false ∧
      get_mapping dbFreshCust (pyStrInt custA.id) = some mFreshCust ∧
      mFreshCust.checksum = some (calculate_customer_checksum custA) ∧
      (sync_single_customer engPlain dbFreshCust custA 3).action = "skipped") ∧
    ((sync_single_customer engPlain {} custA 3).action = "created" ∧
      sync_single_customer engPlain (sync_single_customer engPlain {} custA 3).db custA 4 =
        { action := "skipped", error := none,
          db := (sync_single_customer engPlain {} custA 3).db, calls := [] }) := by
  constructor
  · refine ⟨rfl, by decide, by decide, ?_⟩
    rw [fingerprint_match_skips_and_second_run_skips.1 engPlain dbFreshCust custA 3
      mFreshCust rfl (by decide) (by decide)]
  · exact ⟨by decide,
      fingerprint_match_skips_and_second_run_skips.2.2.2 engPlain {} custA 3 4 rfl rfl
        (Or.inl (by decide))⟩

/-! ## C9: phase failures do not stop the run -/

theorem sync_single_customer_history (eng : SyncEngine) (db : Database)
    (c : ShopifyCustomer) (now : Nat) :
    (sync_single_customer eng db c now).db.history = db.history := by
  unfold sync_single_customer create_customer_in_xero create_customer_no_match
    update_customer_in_xero
  repeat' split
  all_goals try simp [clear_error, upsert_history]
  all_goals repeat' split
  all_goals simp [clear_error, upsert_history]

theorem sync_single_product_history (eng : SyncEngine) (db : Database)
    (p : ShopifyProduct) (now : Nat) :
    (sync_single_product eng db p now).db.history = db.history := by
  unfold sync_single_product create_product_in_xero create_product_no_match
    update_product_in_xero update_product_plain
  repeat' split
  all_goals try simp [clear_error, upsert_history]
  all_goals repeat' split
  all_goals simp [clear_error, upsert_history]

theorem sync_single_order_history (eng : SyncEngine) (db : Database)
    (o : ShopifyOrder) (now : Nat) :
    (sync_single_order eng db o now).db.history = db.history := by
  unfold sync_single_order create_order_in_xero
  repeat' split
  all_goals try simp [clear_error, upsert_history]
  all_goals repeat' split
  all_goals simp [clear_error, upsert_history]

theorem customer_step_history (eng : SyncEngine) (now : Nat)
    (acc : SyncResult × Database × List RemoteCall) (c : ShopifyCustomer) :
    ((customer_step eng now acc c).2.1).history = acc.2.1.history := by
  obtain ⟨res, db, calls⟩ := acc
  unfold customer_step
  cases he : (sync_single_customer eng db c now).error <;>
    simp [he, record_error_history, sync_single_customer_history]

theorem product_step_history (eng : SyncEngine) (now : Nat)
    (acc : SyncResult × Database × List RemoteCall) (p : ShopifyProduct) :
    ((product_step eng now acc p).2.1).history = acc.2.1.history := by
  obtain ⟨res, db, calls⟩ := acc
  unfold product_step
  cases he : (sync_single_product eng db p now).error <;>
    simp [he, record_error_history, sync_single_product_history]

theorem order_step_history (eng : SyncEngine) (now : Nat)
    (acc : SyncResult × Database × List RemoteCall) (o : ShopifyOrder) :
    ((order_step eng now acc o).2.1).history = acc.2.1.history := by
  obtain ⟨res, db, calls⟩ := acc
  unfold order_step
  cases he : (sync_single_order eng db o now).error <;>
    simp [he, record_error_history, sync_single_order_history]

theorem foldl_customer_step_history (eng : SyncEngine) (now : Nat)
    (cs : List ShopifyCustomer) :
    ∀ acc : SyncResult × Database × List RemoteCall,
      ((cs.foldl (customer_step eng now) acc).2.1).history = acc.2.1.history := by
  induction cs with
  | nil => intro acc; rfl
  | cons c t ih =>
    intro acc
    rw [List.foldl_cons, ih (customer_step eng now acc c), customer_step_history]

theorem foldl_product_step_history (eng : SyncEngine) (now : Nat)
    (ps : List ShopifyProduct) :
    ∀ acc : SyncResult × Database × List RemoteCall,
      ((ps.foldl (product_step eng now) acc).2.1).history = acc.2.1.history := by
  induction ps with
  | nil => intro acc; rfl
  | cons p t ih =>
    intro acc
    rw [List.foldl_cons, ih (product_step eng now acc p), product_step_history]

theorem foldl_order_step_history (eng : SyncEngine) (now : Nat)
    (os : List ShopifyOrder) :
    ∀ acc : SyncResult × Database × List RemoteCall,
      ((os.foldl (order_step eng now) acc).2.1).history = acc.2.1.history := by
  induction os with
  | nil => intro acc; rfl
  | cons o t ih =>
    intro acc
    rw [List.foldl_cons, ih (order_step eng now acc o), order_step_history]

theorem sync_customers_history (eng : SyncEngine) (db : Database) (force : Bool)
    (now : Nat) : (sync_customers eng db force now).2.1.history = db.history := by
  unfold sync_customers
  cases hf : eng.shopify.fetch_all_customers (updatedAtMin db force) with
  | err e => rfl
  | ok cs => exact foldl_customer_step_history eng now cs _

theorem sync_products_history (eng : SyncEngine) (db : Database) (force : Bool)
    (now : Nat) : (sync_products eng db force now).2.1.history = db.history := by
  unfold sync_products
  cases hf : eng.shopify.fetch_all_products (updatedAtMin db force) with
  | err e => rfl
  | ok ps => exact foldl_product_step_history eng now ps _

theorem sync_orders_history (eng : SyncEngine) (db : Database) (force : Bool)
    (now : Nat) : (sync_orders eng db force now).2.1.history = db.history := by
  unfold sync_orders
  cases hf : eng.shopify.fetch_all_orders (updatedAtMin db force) with
  | err e => rfl
  | ok os => exact foldl_order_step_history eng now os _

theorem customer_step_calls_mono (eng : SyncEngine) (now : Nat)
    (acc : SyncResult × Database × List RemoteCall) (c : ShopifyCustomer)
    {x : RemoteCall} (hx : x ∈ acc.2.2) : x ∈ (customer_step eng now acc c).2.2 := by
  obtain ⟨res, db, calls⟩ := acc
  unfold customer_step
  cases he : (sync_single_customer eng db c now).error <;> simp [he] <;> exact Or.inl hx

theorem product_step_calls_mono (eng : SyncEngine) (now : Nat)
    (acc : SyncResult × Database × List RemoteCall) (p : ShopifyProduct)
    {x : RemoteCall} (hx : x ∈ acc.2.2) : x ∈ (product_step eng now acc p).2.2 := by
  obtain ⟨res, db, calls⟩ := acc
  unfold product_step
  cases he : (sync_single_product eng db p now).error <;> simp [he] <;> exact Or.inl hx

theorem order_step_calls_mono (eng : SyncEngine) (now : Nat)
    (acc : SyncResult × Database × List RemoteCall) (o : ShopifyOrder)
    {x : RemoteCall} (hx : x ∈ acc.2.2) : x ∈ (order_step eng now acc o).2.2 := by
  obtain ⟨res, db, calls⟩ := acc
  unfold order_step
  cases he : (sync_single_order eng db o now).error <;> simp [he] <;> exact Or.inl hx

theorem sync_products_fetch_call (eng : SyncEngine) (db : Database) (force : Bool)
    (now : Nat) : RemoteCall.shopifyFetchProducts ∈ (sync_products eng db force now).2.2 := by
  unfold sync_products
  cases hf : eng.shopify.fetch_all_products (updatedAtMin db force) with
  | err e => simp
  | ok ps =>
    have : ∀ (l : List ShopifyProduct) (acc : SyncResult × Database × List RemoteCall),
        RemoteCall.shopifyFetchProducts ∈ acc.2.2 →
        RemoteCall.shopifyFetchProducts ∈ (l.foldl (product_step eng now) acc).2.2 := by
      intro l
      induction l with
      | nil => intro acc h; exact h
      | cons p t ih =>
        intro acc h
        rw [List.foldl_cons]
        exact ih _ (product_step_calls_mono eng now acc p h)
    exact this ps _ (by simp)

theorem sync_orders_fetch_call (eng : SyncEngine) (db : Database) (force : Bool)
    (now : Nat) : RemoteCall.shopifyFetchOrders ∈ (sync_orders eng db force now).2.2 := by
  unfold sync_orders
  cases hf : eng.shopify.fetch_all_orders (updatedAtMin db force) with
  | err e => simp
  | ok os =>
    have : ∀ (l : List ShopifyOrder) (acc : SyncResult × Database × List RemoteCall),
        RemoteCall.shopifyFetchOrders ∈ acc.2.2 →
        RemoteCall.shopifyFetchOrders ∈ (l.foldl (order_step eng now) acc).2.2 := by
      intro l
      induction l with
      | nil => intro acc h; exact h
      | cons o t ih =>
        intro acc h
        rw [List.foldl_cons]
        exact ih _ (order_step_calls_mono eng now acc o h)
    exact this os _ (by simp)

theorem sync_customers_fetch_err (eng : SyncEngine) (db : Database) (force : Bool)
    (now : Nat) (e : String)
    (hf : eng.shopify.fetch_all_customers (updatedAtMin db force) = RemoteResult.err e) :
    sync_customers eng db force now =
      ({ success := false, errors := ["Fetch failed: " ++ e] }, db,
       [RemoteCall.shopifyFetchCustomers]) := by
  unfold sync_customers
  rw [hf]

theorem run_history_finalized (dbh : List HistoryRow) (run_id : String) (now : Nat)
    (status : String) (n : Nat) (errs : List String)
    (hrun : ∀ h ∈ dbh, h.run_id ≠ run_id) :
    ((dbh ++ ([{ run_id := run_id, started_at := now, completed_at := none, status := "running", entities_processed := 0, errors := [] }] : List HistoryRow)).map
      (fun (h : HistoryRow) => if h.run_id == run_id then { h with completed_at := some now, status := status, entities_processed := n, errors := errs } else h)).filter
        (fun (h : HistoryRow) => h.run_id == run_id) =
      ([{ run_id := run_id, started_at := now, completed_at := some now, status := status, entities_processed := n, errors := errs }] : List HistoryRow) := by
  rw [List.map_append, List.filter_append]
  have h1 : ((dbh.map (fun h => if h.run_id == run_id then ({ h with completed_at := some now, status := status, entities_processed := n, errors := errs } : HistoryRow) else h)).filter (fun h => h.run_id == run_id)) = [] := by
    rw [List.filter_eq_nil_iff]
    intro x hx
    obtain ⟨h, hh, hfx⟩ := List.mem_map.mp hx
    have hne := hrun h hh
    rw [← hfx, if_neg (by simpa using hne)]
    simpa using hne
  rw [h1]
  simp

/-- C9: when the customer-phase fetch raises, the phase result is marked
failed with a `Fetch failed:` error, yet the product and order phases still
execute (their fetch calls appear in the run's trace), and the run record
for this run id is finalized exactly once, with status `failed`. -/
theorem phase_failure_does_not_stop_run (eng : SyncEngine) (db : Database)
    (run_id : String) (now : Nat) (force : Bool) (e : String)
    (hfetch : ∀ t, eng.shopify.fetch_all_customers t = RemoteResult.err e)
    (hrun : ∀ h ∈ db.history, h.run_id ≠ run_id) :
    (run_full_sync eng db run_id now force).1.customers =
      some { success := false, errors := ["Fetch failed: " ++ e] } ∧
    RemoteCall.shopifyFetchProducts ∈ (run_full_sync eng db run_id now force).2.2 ∧
    RemoteCall.shopifyFetchOrders ∈ (run_full_sync eng db run_id now force).2.2 ∧
    (run_full_sync eng db run_id now force).2.1.history.filter
        (fun h => h.run_id == run_id) =
      ([{ run_id := run_id, started_at := now, completed_at := some now, status := "failed", entities_processed := (run_full_sync eng db run_id now force).1.total_processed, errors := (run_full_sync eng db run_id now force).1.total_errors }] : List HistoryRow) := by
  have hc := sync_customers_fetch_err eng (start_sync_run db run_id now) force now e
    (hfetch _)
  simp only [run_full_sync]
  rw [hc]
  refine ⟨rfl, ?_, ?_, ?_⟩
  · exact List.mem_append_left _
      (List.mem_append_right _ (sync_products_fetch_call eng _ force now))
  · exact List.mem_append_right _ (sync_orders_fetch_call eng _ force now)
  · have hhist : (sync_orders eng
        (sync_products eng (start_sync_run db run_id now) force now).2.1 force now).2.1.history =
        db.history ++ ([{ run_id := run_id, started_at := now, completed_at := none, status := "running", entities_processed := 0, errors := [] }] : List HistoryRow) := by
      rw [sync_orders_history, sync_products_history]
      rfl
    show (complete_sync_run _ run_id _ _ _ now).history.filter
        (fun h => h.run_id == run_id) = _
    unfold complete_sync_run
    simp only
    rw [hhist]
    exact run_history_finalized db.history run_id now _ _ _ hrun

/-- Witness for C9: a run over the empty store with a failing customer
fetch still fetches products and orders and finalizes the run as failed. -/
theorem phase_failure_does_not_stop_run_witness :
    (∀ h ∈ ({} : Database).history, h.run_id ≠ "r1") ∧
    ((run_full_sync engFetchErr {} "r1" 0 false).1.customers =
      some { success := false, errors := ["Fetch failed: " ++ "boom"] } ∧
      RemoteCall.shopifyFetchProducts ∈ (run_full_sync engFetchErr {} "r1" 0 false).2.2 ∧
      RemoteCall.shopifyFetchOrders ∈ (run_full_sync engFetchErr {} "r1" 0 false).2.2 ∧
      (run_full_sync engFetchErr {} "r1" 0 false).2.1.history.filter
          (fun h => h.run_id == "r1") =
        ([{ run_id := "r1", started_at := 0, completed_at := some 0, status := "failed", entities_processed := (run_full_sync engFetchErr {} "r1" 0 false).1.total_processed, errors := (run_full_sync engFetchErr {} "r1" 0 false).1.total_errors }] : List HistoryRow)) := by
  refine ⟨by intro h hh; exact absurd hh (by simp), ?_⟩
  exact phase_failure_does_not_stop_run engFetchErr {} "r1" 0 false "boom" (fun t => rfl)
    (by intro h hh; exact absurd hh (by simp))

/-! ## Product and order pass branch lemmas -/

theorem sync_single_product_new (eng : SyncEngine) (db : Database)
    (p : ShopifyProduct) (now : Nat) (xi : XeroItem)
    (hxi : shopify_product_to_xero_item p = some xi)
    (hm : get_mapping db (pyStrInt p.id) = none) :
    sync_single_product eng db p now =
      create_product_in_xero eng db p xi (calculate_product_checksum p) now := by
  simp only [sync_single_product, hxi, hm]

theorem create_product_link_ok (eng : SyncEngine) (db : Database)
    (p : ShopifyProduct) (xi : XeroItem) (checksum : String) (now : Nat)
    (ei : XeroItem) (hcode : (xi.Code == "") = false)
    (hf : eng.xero.find_item_by_code xi.Code = RemoteResult.ok (some ei))
    (hdry : eng.dry_run = false) (u : XeroItem)
    (hu : eng.xero.update_item { xi with ItemID := ei.ItemID } = RemoteResult.ok u) :
    create_product_in_xero eng db p xi checksum now =
      { action := "updated", error := none,
        db := clear_error (upsert_mapping db
          { shopify_id := pyStrInt p.id, xero_id := orEmpty ei.ItemID,
            entity_type := "product", last_synced_at := some now,
            shopify_updated_at := p.updated_at, checksum := some checksum })
          (pyStrInt p.id),
        calls := [RemoteCall.xeroFindItemByCode xi.Code,
          RemoteCall.xeroUpdateItem ei.ItemID] } := by
  simp only [create_product_in_xero, xero_find_item_by_code, hcode, hf]
  simp [hdry, hu]

theorem sync_single_order_new (eng : SyncEngine) (db : Database) (o : ShopifyOrder)
    (now : Nat) (hm : get_mapping db (pyStrInt o.id) = none) :
    sync_single_order eng db o now =
      create_order_in_xero eng db o (calculate_order_checksum o) now := by
  simp only [sync_single_order, hm]

theorem invoice_reference_nonempty (x : String) :
    ((invoiceReferenceStart ++ x) == "") = false := by
  have h : invoiceReferenceStart ++ x ≠ "" := by
    intro h
    have hd := congrArg String.data h
    rw [strData_append] at hd
    simp [invoiceReferenceStart] at hd
  simpa using h

theorem create_order_link (eng : SyncEngine) (db : Database) (o : ShopifyOrder)
    (checksum : String) (now : Nat) (inv : XeroInvoice)
    (hf : eng.xero.find_invoice_by_reference
      (invoiceReferenceStart ++ pyStrInt o.order_number) = RemoteResult.ok (some inv)) :
    create_order_in_xero eng db o checksum now =
      { action := "skipped", error := none,
        db := clear_error (upsert_mapping db
          { shopify_id := pyStrInt o.id, xero_id := orEmpty inv.InvoiceID,
            entity_type := "order", last_synced_at := some now,
            shopify_updated_at := o.updated_at, checksum := some checksum })
          (pyStrInt o.id),
        calls := [RemoteCall.xeroFindInvoiceByReference
          (invoiceReferenceStart ++ pyStrInt o.order_number)] } := by
  simp only [create_order_in_xero, xero_find_invoice_by_reference,
    invoice_reference_nonempty, hf]
  simp

/-! ## C3: linking a destination match -/

/-- C3 counterexample: a new order whose invoice lookup finds an existing
invoice is linked with action `skipped` and zero update calls — not
`updated` with a push, as claimed for all three entity types. -/
theorem link_match_updated_everywhere_counterexample :
    get_mapping ({} : Database) (pyStrInt ordA.id) = none ∧
    engLinkInvoice.xero.find_invoice_by_reference
      (invoiceReferenceStart ++ pyStrInt ordA.order_number) =
      RemoteResult.ok (some invoiceD1) ∧
    invoiceD1.InvoiceID = some "d1" ∧
    (sync_single_order engLinkInvoice {} ordA 0).action = "skipped" ∧
    ¬((sync_single_order engLinkInvoice {} ordA 0).action = "updated") ∧
    (sync_single_order engLinkInvoice {} ordA 0).calls.filter
      RemoteCall.isDestinationUpdate = [] ∧
    (get_mapping (sync_single_order engLinkInvoice {} ordA 0).db
      (pyStrInt ordA.id)).map SyncMapping.xero_id = some "d1" := by
  decide

/-- C3 (amended): a new customer or product whose natural-key lookup finds a
usable match is linked and pushed — the mapping points at the matched
destination id, the action is `updated`, one update call and zero create
calls are issued; a new order whose reference lookup finds an existing
invoice is linked the same way but records `skipped` and issues zero update
and zero create calls. -/
theorem link_match_link_and_push :
    (∀ (eng : SyncEngine) (db : Database) (c : ShopifyCustomer) (now : Nat)
        (ec u : XeroContact),
        eng.settings.enable_email_marketing = false → eng.dry_run = false →
        get_mapping db (pyStrInt c.id) = none → strTruthy c.email = true →
        eng.xero.find_contact_by_email (orEmpty c.email) = RemoteResult.ok (some ec) →
        (ec.ContactStatus == "ARCHIVED") = false →
        eng.xero.update_contact
          { shopify_customer_to_xero_contact c with ContactID := ec.ContactID } =
          RemoteResult.ok u →
        (sync_single_customer eng db c now).action = "updated" ∧
        (sync_single_customer eng db c now).calls.filter
          RemoteCall.isDestinationCreate = [] ∧
        (sync_single_customer eng db c now).calls.filter
          RemoteCall.isDestinationUpdate = [RemoteCall.xeroUpdateContact ec.ContactID] ∧
        get_mapping (sync_single_customer eng db c now).db (pyStrInt c.id) =
          some { shopify_id := pyStrInt c.id, xero_id := orEmpty ec.ContactID, entity_type := "customer", last_synced_at := some now, shopify_updated_at := c.updated_at, checksum := some (calculate_customer_checksum c) }) ∧
    (∀ (eng : SyncEngine) (db : Database) (p : ShopifyProduct) (now : Nat)
        (xi ei u : XeroItem),
        eng.dry_run = false →
        get_mapping db (pyStrInt p.id) = none →
        shopify_product_to_xero_item p = some xi → (xi.Code == "") = false →
        eng.xero.find_item_by_code xi.Code = RemoteResult.ok (some ei) →
        eng.xero.update_item { xi with ItemID := ei.ItemID } = RemoteResult.ok u →
        (sync_single_product eng db p now).action = "updated" ∧
        (sync_single_product eng db p now).calls.filter
          RemoteCall.isDestinationCreate = [] ∧
        (sync_single_product eng db p now).calls.filter
          RemoteCall.isDestinationUpdate = [RemoteCall.xeroUpdateItem ei.ItemID] ∧
        get_mapping (sync_single_product eng db p now).db (pyStrInt p.id) =
          some { shopify_id := pyStrInt p.id, xero_id := orEmpty ei.ItemID, entity_type := "product", last_synced_at := some now, shopify_updated_at := p.updated_at, checksum := some (calculate_product_checksum p) }) ∧
    (∀ (eng : SyncEngine) (db : Database) (o : ShopifyOrder) (now : Nat)
        (inv : XeroInvoice),
        get_mapping db (pyStrInt o.id) = none →
        eng.xero.find_invoice_by_reference
          (invoiceReferenceStart ++ pyStrInt o.order_number) =
          RemoteResult.ok (some inv) →
        (sync_single_order eng db o now).action = "skipped" ∧
        (sync_single_order eng db o now).error = none ∧
        (sync_single_order eng db o now).calls.filter
          RemoteCall.isDestinationUpdate = [] ∧
        (sync_single_order eng db o now).calls.filter
          RemoteCall.isDestinationCreate = [] ∧
        get_mapping (sync_single_order eng db o now).db (pyStrInt o.id) =
          some { shopify_id := pyStrInt o.id, xero_id := orEmpty inv.InvoiceID, entity_type := "order", last_synced_at := some now, shopify_updated_at := o.updated_at, checksum := some (calculate_order_checksum o) }) := by
  refine ⟨?_, ?_, ?_⟩
  · intro eng db c now ec u hmail hdry hm hemail hf harch hu
    rw [sync_single_customer_new eng db c now hm, marketing_calls_nil hmail,
        create_customer_link_ok eng db c _ now [] hemail ec hf harch hdry u hu]
    refine ⟨rfl, rfl, rfl, ?_⟩
    rw [show ∀ (x : Database) (s s' : String),
      get_mapping (clear_error x s) s' = get_mapping x s' from fun _ _ _ => rfl]
    rw [get_mapping_upsert db _]
    simp [hm]
  · intro eng db p now xi ei u hdry hm hxi hcode hf hu
    rw [sync_single_product_new eng db p now xi hxi hm,
        create_product_link_ok eng db p xi _ now ei hcode hf hdry u hu]
    refine ⟨rfl, rfl, rfl, ?_⟩
    rw [show ∀ (x : Database) (s s' : String),
      get_mapping (clear_error x s) s' = get_mapping x s' from fun _ _ _ => rfl]
    rw [get_mapping_upsert db _]
    simp [hm]
  · intro eng db o now inv hm hf
    rw [sync_single_order_new eng db o now hm, create_order_link eng db o _ now inv hf]
    refine ⟨rfl, rfl, rfl, rfl, ?_⟩
    rw [show ∀ (x : Database) (s s' : String),
      get_mapping (clear_error x s) s' = get_mapping x s' from fun _ _ _ => rfl]
    rw [get_mapping_upsert db _]
    simp [hm]

/-- Witness for the amended C3: customer `custA` over the empty store with
an active `d1` contact match is linked and pushed. -/
theorem link_match_link_and_push_witness :
    (get_mapping ({} : Database) (pyStrInt custA.id) = none ∧
      strTruthy custA.email = true) ∧
    ((sync_single_customer (SyncEngine.init {} shopEnvEmpty xeroEnvLinkContact false)
        {} custA 7).action = "updated" ∧
      get_mapping (sync_single_customer
          (SyncEngine.init {} shopEnvEmpty xeroEnvLinkContact false) {} custA 7).db
          (pyStrInt custA.id) =
        some { shopify_id := pyStrInt custA.id, xero_id := "d1", entity_type := "customer", last_synced_at := some 7, shopify_updated_at := custA.updated_at, checksum := some (calculate_customer_checksum custA) }) := by
  refine ⟨⟨by decide, by decide⟩, ?_⟩
  have h := link_match_link_and_push.1
    (SyncEngine.init {} shopEnvEmpty xeroEnvLinkContact false) {} custA 7 contactD1
    { shopify_customer_to_xero_contact custA with ContactID := contactD1.ContactID }
    rfl rfl (by decide) (by decide) (by decide) (by decide) (by decide)
  exact ⟨h.1, h.2.2.2⟩

/-! ## C6: archived/inactive matches -/

/-- C6 counterexample: a new product whose SKU lookup finds an inactive item
(not sold, not purchased, `[ARCHIVED]`-prefixed name) is nevertheless linked
to it — action `updated`, mapping pointing at the inactive item, zero create
calls — instead of being treated as not-found and created anew. -/
theorem archived_match_treated_as_missing_counterexample :
    itemP1Archived.IsSold = false ∧ itemP1Archived.IsPurchased = false ∧
    get_mapping ({} : Database) (pyStrInt prodA.id) = none ∧
    engLinkItem.xero.find_item_by_code "SKU1" = RemoteResult.ok (some itemP1Archived) ∧
    (sync_single_product engLinkItem {} prodA 0).action = "updated" ∧
    (sync_single_product engLinkItem {} prodA 0).calls.filter
      RemoteCall.isDestinationCreate = [] ∧
    (get_mapping (sync_single_product engLinkItem {} prodA 0).db
      (pyStrInt prodA.id)).map SyncMapping.xero_id = some "p1" := by
  decide

/-- C6 (amended): for customers an ARCHIVED destination match is treated as
not found — a fresh contact is created and the mapping points at the newly
created id; for products there is no archived/inactive check: any match
found by SKU is linked (and pushed) regardless of its `IsSold`/`IsPurchased`
status. -/
theorem archived_contact_skipped_item_always_linked :
    (∀ (eng : SyncEngine) (db : Database) (c : ShopifyCustomer) (now : Nat)
        (ec created : XeroContact),
        eng.settings.enable_email_marketing = false → eng.dry_run = false →
        get_mapping db (pyStrInt c.id) = none → strTruthy c.email = true →
        eng.xero.find_contact_by_email (orEmpty c.email) = RemoteResult.ok (some ec) →
        ec.ContactStatus = "ARCHIVED" →
        eng.xero.create_contact (shopify_customer_to_xero_contact c) =
          RemoteResult.ok created →
        (sync_single_customer eng db c now).action = "created" ∧
        (sync_single_customer eng db c now).calls.filter
          RemoteCall.isDestinationCreate = [RemoteCall.xeroCreateContact] ∧
        get_mapping (sync_single_customer eng db c now).db (pyStrInt c.id) =
          some { shopify_id := pyStrInt c.id, xero_id := orEmpty created.ContactID, entity_type := "customer", last_synced_at := some now, shopify_updated_at := c.updated_at, checksum := some (calculate_customer_checksum c) }) ∧
    (∀ (eng : SyncEngine) (db : Database) (p : ShopifyProduct) (now : Nat)
        (xi ei u : XeroItem),
        eng.dry_run = false →
        get_mapping db (pyStrInt p.id) = none →
        shopify_product_to_xero_item p = some xi → (xi.Code == "") = false →
        eng.xero.find_item_by_code xi.Code = RemoteResult.ok (some ei) →
        eng.xero.update_item { xi with ItemID := ei.ItemID } = RemoteResult.ok u →
        (sync_single_product eng db p now).action = "updated" ∧
        (sync_single_product eng db p now).calls.filter
          RemoteCall.isDestinationCreate = [] ∧
        get_mapping (sync_single_product eng db p now).db (pyStrInt p.id) =
          some { shopify_id := pyStrInt p.id, xero_id := orEmpty ei.ItemID, entity_type := "product", last_synced_at := some now, shopify_updated_at := p.updated_at, checksum := some (calculate_product_checksum p) }) := by
  constructor
  · intro eng db c now ec created hmail hdry hm hemail hf harch hcreate
    rw [sync_single_customer_new eng db c now hm, marketing_calls_nil hmail,
        create_customer_lookup_archived eng db c _ now [] hemail ec hf harch,
        create_customer_no_match_ok eng db c _ now _ hdry created hcreate]
    refine ⟨rfl, rfl, ?_⟩
    rw [show ∀ (x : Database) (s s' : String),
      get_mapping (clear_error x s) s' = get_mapping x s' from fun _ _ _ => rfl]
    rw [get_mapping_upsert db _]
    simp [hm]
  · intro eng db p now xi ei u hdry hm hxi hcode hf hu
    rw [sync_single_product_new eng db p now xi hxi hm,
        create_product_link_ok eng db p xi _ now ei hcode hf hdry u hu]
    refine ⟨rfl, rfl, ?_⟩
    rw [show ∀ (x : Database) (s s' : String),
      get_mapping (clear_error x s) s' = get_mapping x s' from fun _ _ _ => rfl]
    rw [get_mapping_upsert db _]
    simp [hm]

/-- Witness for the amended C6: customer `custA` over the empty store whose
only destination match is ARCHIVED gets a fresh contact `new-c`. -/
theorem archived_contact_skipped_item_always_linked_witness :
    (contactArchived.ContactStatus = "ARCHIVED" ∧
      get_mapping ({} : Database) (pyStrInt custA.id) = none) ∧
    ((sync_single_customer engArchivedContact {} custA 2).action = "created" ∧
      (get_mapping (sync_single_customer engArchivedContact {} custA 2).db
        (pyStrInt custA.id)).map SyncMapping.xero_id = some "new-c") := by
  refine ⟨⟨rfl, by decide⟩, ?_⟩
  have h := archived_contact_skipped_item_always_linked.1 engArchivedContact {} custA 2
    contactArchived
    { shopify_customer_to_xero_contact custA with ContactID := some "new-c" }
    rfl rfl (by decide) (by decide) (by decide) rfl (by decide)
  refine ⟨h.1, ?_⟩
  rw [h.2.2]
  rfl

/-! ## C5: dry-run behaviour -/

/-- C5 counterexample: in dry-run mode, a pass over a new customer whose
email matches an existing active contact takes the link path, which writes
the mapping (with its fingerprint) to the store before the dry-run check;
the same dry run repeated then reports `skipped` instead of `updated`. -/
theorem dry_run_never_writes_fingerprint_counterexample :
    engDryLink.dry_run = true ∧
    (sync_single_customer engDryLink {} custA 0).action = "updated" ∧
    (get_mapping (sync_single_customer engDryLink {} custA 0).db
      (pyStrInt custA.id)).map SyncMapping.checksum =
      some (some (calculate_customer_checksum custA)) ∧
    (sync_single_customer engDryLink
      (sync_single_customer engDryLink {} custA 0).db custA 0).action = "skipped" ∧
    ¬((sync_single_customer engDryLink
        (sync_single_customer engDryLink {} custA 0).db custA 0).action =
      (sync_single_customer engDryLink {} custA 0).action) := by
  decide

theorem find_contact_calls_clean (env : XeroEnv) (email : String) :
    (xero_find_contact_by_email env email).2.filter RemoteCall.isDestinationMutation = [] := by
  unfold xero_find_contact_by_email
  split <;> rfl

theorem find_item_calls_clean (env : XeroEnv) (code : String) :
    (xero_find_item_by_code env code).2.filter RemoteCall.isDestinationMutation = [] := by
  unfold xero_find_item_by_code
  split <;> rfl

theorem find_invoice_calls_clean (env : XeroEnv) (reference : String) :
    (xero_find_invoice_by_reference env reference).2.filter
      RemoteCall.isDestinationMutation = [] := by
  unfold xero_find_invoice_by_reference
  split <;> rfl

theorem get_item_calls_clean (env : XeroEnv) (item_id : String) :
    (xero_get_item_by_id env item_id).2.filter RemoteCall.isDestinationMutation = [] := by
  unfold xero_get_item_by_id
  split <;> rfl

theorem contact_id_calls_clean (eng : SyncEngine) (db : Database) (o : ShopifyOrder) :
    (get_customer_contact_id eng db o).2.filter RemoteCall.isDestinationMutation = [] := by
  simp only [get_customer_contact_id]
  repeat' split
  all_goals first | rfl | exact find_contact_calls_clean _ _

theorem create_customer_in_xero_dry_clean (eng : SyncEngine) (db : Database)
    (c : ShopifyCustomer) (checksum : String) (now : Nat) (calls0 : List RemoteCall)
    (hdry : eng.dry_run = true)
    (h0 : calls0.filter RemoteCall.isDestinationMutation = []) :
    (create_customer_in_xero eng db c checksum now calls0).calls.filter
      RemoteCall.isDestinationMutation = [] := by
  cases hemail : strTruthy c.email with
  | false =>
    rw [create_customer_skip_lookup eng db c checksum now calls0 hemail,
        create_customer_no_match_dry eng db c checksum now calls0 hdry]
    exact h0
  | true =>
    cases hf : eng.xero.find_contact_by_email (orEmpty c.email) with
    | ok r =>
      cases r with
      | none =>
        rw [create_customer_lookup_none eng db c checksum now calls0 hemail hf,
            create_customer_no_match_dry eng db c checksum now _ hdry]
        simp [List.filter_append, h0, RemoteCall.isDestinationMutation,
          RemoteCall.isDestinationCreate, RemoteCall.isDestinationUpdate]
      | some ec =>
        cases harch : ec.ContactStatus == "ARCHIVED" with
        | true =>
          rw [create_customer_lookup_archived eng db c checksum now calls0 hemail ec hf
                (by simpa using harch),
              create_customer_no_match_dry eng db c checksum now _ hdry]
          simp [List.filter_append, h0, RemoteCall.isDestinationMutation,
            RemoteCall.isDestinationCreate, RemoteCall.isDestinationUpdate]
        | false =>
          rw [create_customer_link_dry eng db c checksum now calls0 hemail ec hf harch hdry]
          simp [List.filter_append, h0, RemoteCall.isDestinationMutation,
            RemoteCall.isDestinationCreate, RemoteCall.isDestinationUpdate]
    | err e =>
      rw [create_customer_lookup_err eng db c checksum now calls0 hemail e hf,
          create_customer_no_match_dry eng db c checksum now _ hdry]
      simp [List.filter_append, h0, RemoteCall.isDestinationMutation,
        RemoteCall.isDestinationCreate, RemoteCall.isDestinationUpdate]

theorem update_product_plain_dry (eng : SyncEngine) (db : Database)
    (p : ShopifyProduct) (xi : XeroItem) (m : SyncMapping) (fp : String) (now : Nat)
    (calls : List RemoteCall) (hdry : eng.dry_run = true) :
    update_product_plain eng db p xi m fp now calls =
      { action := "updated", error := none, db := db, calls := calls } := by
  simp only [update_product_plain, hdry]
  simp

theorem update_product_in_xero_dry (eng : SyncEngine) (db : Database)
    (p : ShopifyProduct) (xi : XeroItem) (m : SyncMapping) (fp : String) (now : Nat)
    (hdry : eng.dry_run = true) :
    update_product_in_xero eng db p xi m fp now =
      { action := "updated", error := none, db := db,
        calls := (xero_get_item_by_id eng.xero m.xero_id).2 } := by
  simp only [update_product_in_xero]
  cases hres : (xero_get_item_by_id eng.xero m.xero_id).1 with
  | err e =>
    simp only [hres]
    rw [update_product_plain_dry eng db p xi m fp now _ hdry]
  | ok r =>
    cases r with
    | none =>
      simp only [hres]
      rw [update_product_plain_dry eng db p xi m fp now _ hdry]
    | some cur =>
      simp only [hres]
      cases hcode : cur.Code == xi.Code with
      | true => simp [hcode, update_product_plain, hdry]
      | false => simp [hcode, hdry]

theorem create_product_in_xero_dry_clean (eng : SyncEngine) (db : Database)
    (p : ShopifyProduct) (xi : XeroItem) (checksum : String) (now : Nat)
    (hdry : eng.dry_run = true) :
    (create_product_in_xero eng db p xi checksum now).calls.filter
      RemoteCall.isDestinationMutation = [] := by
  simp only [create_product_in_xero]
  cases hres : (xero_find_item_by_code eng.xero xi.Code).1 with
  | ok r =>
    cases r with
    | some ei =>
      simp only [hres]
      simp [hdry, find_item_calls_clean]
    | none =>
      simp only [hres]
      simp [create_product_no_match, hdry, find_item_calls_clean]
  | err e =>
    simp only [hres]
    simp [create_product_no_match, hdry, find_item_calls_clean]

theorem create_order_in_xero_dry_clean (eng : SyncEngine) (db : Database)
    (o : ShopifyOrder) (checksum : String) (now : Nat) (hdry : eng.dry_run = true) :
    (create_order_in_xero eng db o checksum now).calls.filter
      RemoteCall.isDestinationMutation = [] := by
  simp only [create_order_in_xero]
  cases hres : (xero_find_invoice_by_reference eng.xero
      (invoiceReferenceStart ++ pyStrInt o.order_number)).1 with
  | ok r =>
    cases r with
    | some inv =>
      simp only [hres]
      simp [find_invoice_calls_clean]
    | none =>
      simp only [hres]
      split
      · simp [List.filter_append, find_invoice_calls_clean, contact_id_calls_clean]
      · simp [hdry, List.filter_append, find_invoice_calls_clean, contact_id_calls_clean]
  | err e =>
    simp only [hres]
    split
    · simp [List.filter_append, find_invoice_calls_clean, contact_id_calls_clean]
    · simp [hdry, List.filter_append, find_invoice_calls_clean, contact_id_calls_clean]

/-- C5 (amended): in dry-run mode no destination create/update call is ever
issued by any pass; a pass over an already-mapped customer and the create
path of an unmatched customer leave the store untouched — but the link paths
and the changed-order path still write the mapping fingerprint, so repeated
dry runs need not report the same actions. -/
theorem dry_run_no_remote_mutations :
    (∀ (eng : SyncEngine) (db : Database) (c : ShopifyCustomer) (now : Nat),
        eng.dry_run = true →
        (sync_single_customer eng db c now).calls.filter
          RemoteCall.isDestinationMutation = []) ∧
    (∀ (eng : SyncEngine) (db : Database) (p : ShopifyProduct) (now : Nat),
        eng.dry_run = true →
        (sync_single_product eng db p now).calls.filter
          RemoteCall.isDestinationMutation = []) ∧
    (∀ (eng : SyncEngine) (db : Database) (o : ShopifyOrder) (now : Nat),
        eng.dry_run = true →
        (sync_single_order eng db o now).calls.filter
          RemoteCall.isDestinationMutation = []) ∧
    (∀ (eng : SyncEngine) (db : Database) (c : ShopifyCustomer) (now : Nat)
        (m : SyncMapping), eng.dry_run = true →
        get_mapping db (pyStrInt c.id) = some m →
        (sync_single_customer eng db c now).db = db) ∧
    (∀ (eng : SyncEngine) (db : Database) (c : ShopifyCustomer) (now : Nat),
        eng.dry_run = true →
        get_mapping db (pyStrInt c.id) = none → strTruthy c.email = false →
        (sync_single_customer eng db c now).db = db) := by
  refine ⟨?_, ?_, ?_, ?_, ?_⟩
  · intro eng db c now hdry
    cases hm : get_mapping db (pyStrInt c.id) with
    | some m =>
      rw [sync_single_customer_mapped eng db c now m hm]
      split
      · simp [hdry]
      · rw [update_customer_dry eng db c m _ now _ hdry]
        simp [hdry]
    | none =>
      rw [sync_single_customer_new eng db c now hm]
      exact create_customer_in_xero_dry_clean eng db c _ now _ hdry (by simp [hdry])
  · intro eng db p now hdry
    simp only [sync_single_product]
    cases hconv : shopify_product_to_xero_item p with
    | none => rfl
    | some xi =>
      simp only [hconv]
      cases hm : get_mapping db (pyStrInt p.id) with
      | some m =>
        simp only [hm]
        split
        · rfl
        · rw [update_product_in_xero_dry eng db p xi m _ now hdry]
          exact get_item_calls_clean eng.xero m.xero_id
      | none =>
        simp only [hm]
        exact create_product_in_xero_dry_clean eng db p xi _ now hdry
  · intro eng db o now hdry
    simp only [sync_single_order]
    cases hm : get_mapping db (pyStrInt o.id) with
    | some m =>
      simp only [hm]
      split <;> rfl
    | none =>
      simp only [hm]
      exact create_order_in_xero_dry_clean eng db o _ now hdry
  · intro eng db c now m hdry hm
    rw [sync_single_customer_mapped eng db c now m hm]
    split
    · rfl
    · rw [update_customer_dry eng db c m _ now _ hdry]
  · intro eng db c now hdry hm hemail
    rw [sync_single_customer_new eng db c now hm,
        create_customer_skip_lookup eng db c _ now _ hemail,
        create_customer_no_match_dry eng db c _ now _ hdry]

/-- Witness for the C5 amended theorem at concrete dry-run inputs: the dry
engine over the linking environment issues no destination mutation for a
customer, product or order pass, and leaves the store untouched on the
mapped-customer and falsy-email create paths. -/
theorem dry_run_no_remote_mutations_witness :
    engDryLink.dry_run = true ∧
    get_mapping dbFreshCust (pyStrInt custA.id) = some mFreshCust ∧
    get_mapping ({} : Database) (pyStrInt custNoEmail.id) = none ∧
    strTruthy custNoEmail.email = false ∧
    (sync_single_customer engDryLink {} custA 0).calls.filter
      RemoteCall.isDestinationMutation = [] ∧
    (sync_single_product engDryLink {} prodA 0).calls.filter
      RemoteCall.isDestinationMutation = [] ∧
    (sync_single_order engDryLink {} ordA 0).calls.filter
      RemoteCall.isDestinationMutation = [] ∧
    (sync_single_customer engDryLink dbFreshCust custA 0).db = dbFreshCust ∧
    (sync_single_customer engDryLink {} custNoEmail 0).db = {} :=
  ⟨by decide, by decide, by decide, by decide,
    dry_run_no_remote_mutations.1 engDryLink {} custA 0 (by decide),
    dry_run_no_remote_mutations.2.1 engDryLink {} prodA 0 (by decide),
    dry_run_no_remote_mutations.2.2.1 engDryLink {} ordA 0 (by decide),
    dry_run_no_remote_mutations.2.2.2.1 engDryLink dbFreshCust custA 0 mFreshCust
      (by decide) (by decide),
    dry_run_no_remote_mutations.2.2.2.2 engDryLink {} custNoEmail 0
      (by decide) (by decide) (by decide)⟩

/-! ## C8: fingerprint determinism, id exclusion and field sensitivity -/

theorem encodeLineItem_title_inj (li : ShopifyLineItem) (t' : String)
    (h : encodeLineItem { li with title := t' } = encodeLineItem li) : t' = li.title := by
  simp only [encodeLineItem] at h
  exact str_append_cancel_right (str_append_cancel_right
    (str_append_cancel_right (str_append_cancel_right h)))

theorem encodeLineItem_quantity_inj (li : ShopifyLineItem) (q' : Int)
    (h : encodeLineItem { li with quantity := q' } = encodeLineItem li) : q' = li.quantity := by
  simp only [encodeLineItem] at h
  exact pyStrInt_inj (str_append_cancel_left
    (str_append_cancel_right (str_append_cancel_right h)))

theorem encodeLineItem_price_inj (li : ShopifyLineItem) (p' : String)
    (h : encodeLineItem { li with price := p' } = encodeLineItem li) : p' = li.price := by
  simp only [encodeLineItem] at h
  exact str_append_cancel_left h

theorem order_items_join_eq (o : ShopifyOrder) (xs ys : List ShopifyLineItem)
    (h : calculate_order_checksum { o with line_items := xs } =
      calculate_order_checksum { o with line_items := ys }) :
    joinSep ";" (xs.map encodeLineItem) = joinSep ";" (ys.map encodeLineItem) := by
  simp only [calculate_order_checksum, sha256Hex] at h
  exact joinSep_eq_at "|"
    [pyStrInt o.order_number, orDefault o.total_price "0.00",
     orDefault o.subtotal_price "0.00", orDefault o.total_tax "0.00",
     orEmpty o.financial_status, orEmpty o.email]
    (joinSep ";" (List.map encodeLineItem xs)) (joinSep ";" (List.map encodeLineItem ys))
    [] h

theorem order_item_change_elim (o : ShopifyOrder) (pre post : List ShopifyLineItem)
    (a b : ShopifyLineItem)
    (h : calculate_order_checksum { o with line_items := pre ++ a :: post } =
      calculate_order_checksum { o with line_items := pre ++ b :: post }) :
    encodeLineItem a = encodeLineItem b := by
  have hj := order_items_join_eq o (pre ++ a :: post) (pre ++ b :: post) h
  simp only [List.map_append, List.map_cons] at hj
  exact joinSep_eq_at ";" (pre.map encodeLineItem) (encodeLineItem a) (encodeLineItem b)
    (post.map encodeLineItem) hj

/-- C8: the fingerprint functions are pure Lean functions; the entity's own
identifier is excluded from the input (changing only the customer, product,
order or line-item id never changes the fingerprint); missing optional
fields are treated as empty strings; the customer phone falls back to the
default address's phone; and changing any included field — normalized
email, first name, last name, effective phone or address line of a
customer, or the title, quantity or price of any order line item — changes
the fingerprint. -/
theorem fingerprint_excludes_id_and_is_field_sensitive :
    (∀ (c : ShopifyCustomer) (i : Int),
        calculate_customer_checksum { c with id := i } = calculate_customer_checksum c) ∧
    (∀ (p : ShopifyProduct) (i : Int),
        calculate_product_checksum { p with id := i } = calculate_product_checksum p) ∧
    (∀ (o : ShopifyOrder) (i : Int),
        calculate_order_checksum { o with id := i } = calculate_order_checksum o) ∧
    (∀ (o : ShopifyOrder) (pre post : List ShopifyLineItem) (li : ShopifyLineItem) (i : Int),
        calculate_order_checksum { o with line_items := pre ++ { li with id := i } :: post } =
          calculate_order_checksum { o with line_items := pre ++ li :: post }) ∧
    (∀ (c : ShopifyCustomer),
        calculate_customer_checksum { c with email := none } =
          calculate_customer_checksum { c with email := some "" }) ∧
    (∀ (c : ShopifyCustomer) (addr : ShopifyAddress),
        calculate_customer_checksum { c with phone := none, default_address := some addr } =
          calculate_customer_checksum { c with phone := addr.phone, default_address := some addr }) ∧
    (∀ (c : ShopifyCustomer) (e' : Option String),
        orEmpty e' ≠ orEmpty c.email →
        calculate_customer_checksum { c with email := e' } ≠ calculate_customer_checksum c) ∧
    (∀ (c : ShopifyCustomer) (f' : Option String),
        orEmpty f' ≠ orEmpty c.first_name →
        calculate_customer_checksum { c with first_name := f' } ≠ calculate_customer_checksum c) ∧
    (∀ (c : ShopifyCustomer) (l' : Option String),
        orEmpty l' ≠ orEmpty c.last_name →
        calculate_customer_checksum { c with last_name := l' } ≠ calculate_customer_checksum c) ∧
    (∀ (c : ShopifyCustomer) (p' : Option String),
        customerEffectivePhone { c with phone := p' } ≠ customerEffectivePhone c →
        calculate_customer_checksum { c with phone := p' } ≠ calculate_customer_checksum c) ∧
    (∀ (c : ShopifyCustomer) (addr : ShopifyAddress) (a' : Option String),
        c.default_address = some addr →
        orEmpty a' ≠ orEmpty addr.address1 →
        calculate_customer_checksum { c with default_address := some { addr with address1 := a' } } ≠
          calculate_customer_checksum c) ∧
    (∀ (o : ShopifyOrder) (pre post : List ShopifyLineItem) (li : ShopifyLineItem) (t' : String),
        t' ≠ li.title →
        calculate_order_checksum { o with line_items := pre ++ { li with title := t' } :: post } ≠
          calculate_order_checksum { o with line_items := pre ++ li :: post }) ∧
    (∀ (o : ShopifyOrder) (pre post : List ShopifyLineItem) (li : ShopifyLineItem) (q' : Int),
        q' ≠ li.quantity →
        calculate_order_checksum { o with line_items := pre ++ { li with quantity := q' } :: post } ≠
          calculate_order_checksum { o with line_items := pre ++ li :: post }) ∧
    (∀ (o : ShopifyOrder) (pre post : List ShopifyLineItem) (li : ShopifyLineItem) (p' : String),
        p' ≠ li.price →
        calculate_order_checksum { o with line_items := pre ++ { li with price := p' } :: post } ≠
          calculate_order_checksum { o with line_items := pre ++ li :: post }) := by
  refine ⟨?_, ?_, ?_, ?_, ?_, ?_, ?_, ?_, ?_, ?_, ?_, ?_, ?_, ?_⟩
  · intro c i
    rfl
  · intro p i
    rfl
  · intro o i
    rfl
  · intro o pre post li i
    simp only [calculate_order_checksum, sha256Hex, List.map_append, List.map_cons]
    rfl
  · intro c
    rfl
  · intro c addr
    have hph : customerEffectivePhone { c with phone := addr.phone, default_address := some addr } = orEmpty addr.phone := by
      simp only [customerEffectivePhone]
      split <;> rfl
    simp only [calculate_customer_checksum, sha256Hex]
    rw [hph]
    rfl
  · intro c e' hne heq
    apply hne
    have hph : customerEffectivePhone { c with email := e' } = customerEffectivePhone c := rfl
    simp only [calculate_customer_checksum, sha256Hex] at heq
    rw [hph] at heq
    cases hda : c.default_address with
    | none =>
      simp only [hda] at heq
      exact joinSep_eq_at "|" [] (orEmpty e') (orEmpty c.email)
        [orEmpty c.first_name, orEmpty c.last_name, customerEffectivePhone c] heq
    | some addr =>
      simp only [hda] at heq
      exact joinSep_eq_at "|" [] (orEmpty e') (orEmpty c.email)
        ([orEmpty c.first_name, orEmpty c.last_name, customerEffectivePhone c] ++
         [orEmpty addr.address1, orEmpty addr.address2, orEmpty addr.city,
          orEmpty addr.province, orEmpty addr.zip, orEmpty addr.country]) heq
  · intro c f' hne heq
    apply hne
    have hph : customerEffectivePhone { c with first_name := f' } = customerEffectivePhone c := rfl
    simp only [calculate_customer_checksum, sha256Hex] at heq
    rw [hph] at heq
    cases hda : c.default_address with
    | none =>
      simp only [hda] at heq
      exact joinSep_eq_at "|" [orEmpty c.email] (orEmpty f') (orEmpty c.first_name)
        [orEmpty c.last_name, customerEffectivePhone c] heq
    | some addr =>
      simp only [hda] at heq
      exact joinSep_eq_at "|" [orEmpty c.email] (orEmpty f') (orEmpty c.first_name)
        ([orEmpty c.last_name, customerEffectivePhone c] ++
         [orEmpty addr.address1, orEmpty addr.address2, orEmpty addr.city,
          orEmpty addr.province, orEmpty addr.zip, orEmpty addr.country]) heq
  · intro c l' hne heq
    apply hne
    have hph : customerEffectivePhone { c with last_name := l' } = customerEffectivePhone c := rfl
    simp only [calculate_customer_checksum, sha256Hex] at heq
    rw [hph] at heq
    cases hda : c.default_address with
    | none =>
      simp only [hda] at heq
      exact joinSep_eq_at "|" [orEmpty c.email, orEmpty c.first_name]
        (orEmpty l') (orEmpty c.last_name) [customerEffectivePhone c] heq
    | some addr =>
      simp only [hda] at heq
      exact joinSep_eq_at "|" [orEmpty c.email, orEmpty c.first_name]
        (orEmpty l') (orEmpty c.last_name)
        ([customerEffectivePhone c] ++
         [orEmpty addr.address1, orEmpty addr.address2, orEmpty addr.city,
          orEmpty addr.province, orEmpty addr.zip, orEmpty addr.country]) heq
  · intro c p' hne heq
    apply hne
    simp only [calculate_customer_checksum, sha256Hex] at heq
    exact joinSep_eq_at "|" [orEmpty c.email, orEmpty c.first_name, orEmpty c.last_name]
      (customerEffectivePhone { c with phone := p' }) (customerEffectivePhone c)
      (match c.default_address with
       | some addr =>
         [orEmpty addr.address1, orEmpty addr.address2, orEmpty addr.city,
          orEmpty addr.province, orEmpty addr.zip, orEmpty addr.country]
       | none => []) heq
  · intro c addr a' hda hne heq
    apply hne
    have hph : customerEffectivePhone { c with default_address := some { addr with address1 := a' } } = customerEffectivePhone c := by
      simp only [customerEffectivePhone, hda]
    simp only [calculate_customer_checksum, sha256Hex, hda, hph] at heq
    exact joinSep_eq_at "|"
      [orEmpty c.email, orEmpty c.first_name, orEmpty c.last_name, customerEffectivePhone c]
      (orEmpty a') (orEmpty addr.address1)
      [orEmpty addr.address2, orEmpty addr.city, orEmpty addr.province,
       orEmpty addr.zip, orEmpty addr.country] heq
  · intro o pre post li t' hne heq
    exact hne (encodeLineItem_title_inj li t' (order_item_change_elim o pre post _ li heq))
  · intro o pre post li q' hne heq
    exact hne (encodeLineItem_quantity_inj li q' (order_item_change_elim o pre post _ li heq))
  · intro o pre post li p' hne heq
    exact hne (encodeLineItem_price_inj li p' (order_item_change_elim o pre post _ li heq))

/-- Witness for the C8 theorem at concrete entities: changing `custA`'s
normalized email, first name, last name or effective phone, `custAddr`'s
first address line, or the title, quantity or price of `ordA`'s line item
all change the corresponding fingerprint. -/
theorem fingerprint_excludes_id_and_is_field_sensitive_witness :
    (orEmpty (some "z@x.com") ≠ orEmpty custA.email ∧
      calculate_customer_checksum { custA with email := some "z@x.com" } ≠
        calculate_customer_checksum custA) ∧
    (orEmpty (some "Z") ≠ orEmpty custA.first_name ∧
      calculate_customer_checksum { custA with first_name := some "Z" } ≠
        calculate_customer_checksum custA) ∧
    (orEmpty (some "Y") ≠ orEmpty custA.last_name ∧
      calculate_customer_checksum { custA with last_name := some "Y" } ≠
        calculate_customer_checksum custA) ∧
    (customerEffectivePhone { custA with phone := some "0777" } ≠ customerEffectivePhone custA ∧
      calculate_customer_checksum { custA with phone := some "0777" } ≠
        calculate_customer_checksum custA) ∧
    (custAddr.default_address = some addrA ∧
      orEmpty (some "2 Low Rd") ≠ orEmpty addrA.address1 ∧
      calculate_customer_checksum { custAddr with default_address := some { addrA with address1 := some "2 Low Rd" } } ≠
        calculate_customer_checksum custAddr) ∧
    ("Gadget" ≠ liA.title ∧
      calculate_order_checksum { ordA with line_items := [] ++ { liA with title := "Gadget" } :: [] } ≠
        calculate_order_checksum { ordA with line_items := [] ++ liA :: [] }) ∧
    ((3 : Int) ≠ liA.quantity ∧
      calculate_order_checksum { ordA with line_items := [] ++ { liA with quantity := 3 } :: [] } ≠
        calculate_order_checksum { ordA with line_items := [] ++ liA :: [] }) ∧
    ("1.00" ≠ liA.price ∧
      calculate_order_checksum { ordA with line_items := [] ++ { liA with price := "1.00" } :: [] } ≠
        calculate_order_checksum { ordA with line_items := [] ++ liA :: [] }) :=
  ⟨⟨by decide, fingerprint_excludes_id_and_is_field_sensitive.2.2.2.2.2.2.1 custA
      (some "z@x.com") (by decide)⟩,
   ⟨by decide, fingerprint_excludes_id_and_is_field_sensitive.2.2.2.2.2.2.2.1 custA
      (some "Z") (by decide)⟩,
   ⟨by decide, fingerprint_excludes_id_and_is_field_sensitive.2.2.2.2.2.2.2.2.1 custA
      (some "Y") (by decide)⟩,
   ⟨by decide, fingerprint_excludes_id_and_is_field_sensitive.2.2.2.2.2.2.2.2.2.1 custA
      (some "0777") (by decide)⟩,
   ⟨by decide, by decide, fingerprint_excludes_id_and_is_field_sensitive.2.2.2.2.2.2.2.2.2.2.1
      custAddr addrA (some "2 Low Rd") (by decide) (by decide)⟩,
   ⟨by decide, fingerprint_excludes_id_and_is_field_sensitive.2.2.2.2.2.2.2.2.2.2.2.1
      ordA [] [] liA "Gadget" (by decide)⟩,
   ⟨by decide, fingerprint_excludes_id_and_is_field_sensitive.2.2.2.2.2.2.2.2.2.2.2.2.1
      ordA [] [] liA 3 (by decide)⟩,
   ⟨by decide, fingerprint_excludes_id_and_is_field_sensitive.2.2.2.2.2.2.2.2.2.2.2.2.2
      ordA [] [] liA "1.00" (by decide)⟩⟩
